import Mathlib

/-!
Verification development for the GraphwalkerBenchmarkAnalysis repository.

The Python sources under `src/` are shallowly embedded as Lean definitions:

* `src/models/benchmark_run.py` → `BenchmarkRun`, `BenchmarkRun.from_files`
* `src/plotters/benchmark_plotter.py` → `plot_bars`, `plot_bars_tests`,
  `plot_histogram`, the `plot_*` chart functions and `create_plots`
* `src/report/report_factory.py` → `create_report`, `create_raw_report`,
  `create_html_report`, `create_pdf_report`

Numbers are modelled as `Rat` (the Python code computes with ints and floats;
the claims under study concern guards, data flow and key structure, not
floating-point rounding).  Python exceptions are modelled with `Except PyErr`.
Rendering primitives of matplotlib/numpy (actual rasterisation, the numeric
least-squares `np.polyfit`) and JSON serialisation are external collaborators
(spec §1); charts are therefore modelled as the data handed to those
primitives: bar positions, bar heights, the (x, y) pairs passed to the
trend-line fit, histogram items and weights, titles and axis labels.

Classes of this repository that are referenced but whose files are not under
`src/` (`models/benchmark.py`, `models/benchmark_generator.py`,
`utils/benchmark_filter.py`, `statistics/benchmark_statistics.py`) are
modelled from the spec where marked.
-/

/-- Python exceptions that the embedded code can raise. -/
inductive PyErr
  | typeError (msg : String)
  | valueError (msg : String)
  | zeroDivisionError
  | stopIteration
  | fileNotFoundError
  | jsonDecodeError
deriving DecidableEq

/-- Modelled from the spec (§3): the model graph metadata carried by the
report of `models/benchmark.py`, which is not under `src/`.  Only the fixed
vertex/edge counts are used (by the two coverage-percentage plots). -/
structure GraphModel where
  vertices : Int
  edges : Int
deriving DecidableEq

/-- Modelled from the spec (§3): `BenchmarkGenerator` (aka GeneratorGroup) of
`models/benchmark_generator.py`, which is not under `src/`.  The plotter code
under `src/` consumes these derived attributes as opaque values, so they are
modelled as fields of the record interface. -/
structure BenchmarkGenerator where
  generator_name : String
  stop_coverage : Int
  total_generation_time : Rat
  average_generation_time : Rat
  min_generation_time : Rat
  max_generation_time : Rat
  total_test_suite_size : Rat
  average_test_suite_size : Rat
  min_test_suite_size : Rat
  max_test_suite_size : Rat
  total_vertex_visits_individual : List (String × Rat)
  total_edge_visits_individual : List (String × Rat)
  average_vertex_visits_individual : List (String × Rat)
  average_edge_visits_individual : List (String × Rat)
deriving DecidableEq

/-- Modelled from the spec (§3): `RunGroup` of `models/benchmark.py`, which is
not under `src/`: a test-execution bucket keyed by (algorithm, stop-coverage)
with aggregate durations and the `successfulRuns` flag. -/
structure RunGroup where
  algorithm : String
  stop_coverage : Int
  successful_runs : Bool
  average_test_duration : Rat
  minimum_test_duration : Rat
  maximum_test_duration : Rat
deriving DecidableEq

/-- A grouped-generator mapping: Python `dict[str, list[BenchmarkGenerator]]`.
CPython dicts preserve insertion order, so the mapping is an association
list. -/
abbrev Grouped := List (String × List BenchmarkGenerator)

/-- Modelled from the spec (§3): the `report` attribute of
`models/benchmark.py` (not under `src/`): model metadata plus all generators
grouped by name. -/
structure Report where
  model : GraphModel
  generators_grouped : Grouped
deriving DecidableEq

/-- Modelled from the spec (§3): the top-level `Benchmark` of
`models/benchmark.py` (not under `src/`): the full report plus the list of
`RunGroup`s. -/
structure Benchmark where
  name : String
  report : Report
  run_groups : List RunGroup
deriving DecidableEq

/-- Modelled from the spec (§3): `Benchmark.run_groups_sorted` used by
`_plot_bars_tests` (`models/benchmark.py` is not under `src/`); the spec says
the RunGroups are "sorted by coverage". -/
def Benchmark.run_groups_sorted (b : Benchmark) : List RunGroup :=
  b.run_groups.insertionSort (fun x y => x.stop_coverage ≤ y.stop_coverage)

/-- Embedding of a sequential Python `for` loop that computes one value per
element and propagates the first raised exception (the effect of the
list-building loops and comprehensions in the plotter). -/
def mapE {α β : Type} (f : α → Except PyErr β) : List α → Except PyErr (List β)
  | [] => .ok []
  | a :: l => do
    let b ← f a
    let bs ← mapE f l
    pure (b :: bs)

/-- Embedding of Python `enumerate` starting at index `k`. -/
def enumerate {α : Type} (k : Nat) : List α → List (Nat × α)
  | [] => []
  | a :: l => (k, a) :: enumerate (k + 1) l

/-- Embedding of Python division: raises `ZeroDivisionError` on a zero
divisor, otherwise exact division. -/
def pyDiv (a b : Rat) : Except PyErr Rat :=
  if b = 0 then .error PyErr.zeroDivisionError else .ok (a / b)

/-- Embedding of Python `int(...)` on a rational: truncation toward zero. -/
def pyInt (q : Rat) : Int :=
  q.num.tdiv q.den

/-- Message of the `TypeError` numpy raises when `np.polyfit` is given an
empty x vector. -/
def polyfit_empty_msg : String := "expected non-empty vector for x"

/-- One bar series drawn by `BenchmarkPlotter._plot_bars` /
`_plot_bars_tests`: the label, the bar x positions (`coverage_values` in the
source, i.e. stop-coverage plus the series index times the bar width), the
bar heights (`property_values`), and the (x, y) pairs handed to the external
degree-3 `np.polyfit` trend-line fit (`none` when no trend line is drawn). -/
structure BarSeries where
  label : String
  xs : List Rat
  heights : List Rat
  trend_fit_input : Option (List (Rat × Rat))
deriving DecidableEq

/-- One histogram layer drawn by `_plot_histogram`: the generator-group
label, the identifiers sorted by descending visit count, and the integer
weights handed to `ax.hist`. -/
structure HistEntry where
  label : String
  items : List String
  weights : List Int
deriving DecidableEq

/-- A rendered chart, modelled as the data handed to the external rendering
primitives: title, axis labels and the plotted series. -/
inductive Chart
  | bars (title : String) (xlabel : String) (ylabel : String)
      (series : List BarSeries) (xticks : List Int)
  | lines (title : String) (xlabel : String) (ylabel : String)
      (series : List (String × List (Int × Rat))) (xticks : List Int)
  | hist (title : String) (xlabel : String) (ylabel : String)
      (entries : List HistEntry)
deriving DecidableEq

/-- Loop body of `_plot_bars` (src/plotters/benchmark_plotter.py lines
133-143) for the series with index `p.1`, name `p.2.1` and generator list
`p.2.2`: bar x positions are `stop_coverage + i * bar_width`, the value
lambda is applied to every generator, and when a trend line is requested the
(x, y) pairs are handed to `np.polyfit` (which raises on an empty vector). -/
def mk_series (w : Rat) (f : BenchmarkGenerator → Except PyErr Rat)
    (add_trend_line : Bool) (p : Nat × String × List BenchmarkGenerator) :
    Except PyErr BarSeries := do
  let coverage_xs := p.2.2.map (fun gen => (gen.stop_coverage : Rat) + (p.1 : Rat) * w)
  let ys ← mapE f p.2.2
  let trend ←
    if add_trend_line then
      if coverage_xs.isEmpty then
        throw (PyErr.typeError polyfit_empty_msg)
      else
        pure (some (coverage_xs.zip ys))
    else
      pure (none : Option (List (Rat × Rat)))
  pure { label := p.2.1, xs := coverage_xs, heights := ys, trend_fit_input := trend }

/-- Embedding of `BenchmarkPlotter._plot_bars` (src/plotters/
benchmark_plotter.py lines 118-148).  `bar_width = 6 / group_count` raises
`ZeroDivisionError` for an empty mapping; the x tick positions come from the
first entry of the mapping (`next(iter(...))`, `StopIteration` when empty).
Returns the bar series together with the x ticks. -/
def plot_bars (grouped : Grouped) (f : BenchmarkGenerator → Except PyErr Rat)
    (add_trend_line : Bool := true) : Except PyErr (List BarSeries × List Int) := do
  if grouped.length = 0 then
    throw PyErr.zeroDivisionError
  let w : Rat := 6 / (grouped.length : Rat)
  let series ← mapE (mk_series w f add_trend_line) (enumerate 0 grouped)
  match grouped with
  | [] => throw PyErr.stopIteration
  | e :: _ => pure (series, e.2.map (fun gen => gen.stop_coverage))

/-- Append a run group to its algorithm's bucket, creating the bucket at the
end on first occurrence (the Python dict-building loop of
`_plot_bars_tests`, lines 159-165). -/
def assoc_append (l : List (String × List RunGroup)) (k : String) (v : RunGroup) :
    List (String × List RunGroup) :=
  match l with
  | [] => [(k, [v])]
  | (k', vs) :: rest =>
    if k' = k then (k', vs ++ [v]) :: rest else (k', vs) :: assoc_append rest k v

/-- Run groups of the benchmark grouped by algorithm, skipping algorithms
that are not keys of the grouped-generator mapping (lines 159-165). -/
def grouped_run_groups (benchmark : Benchmark) (grouped : Grouped) :
    List (String × List RunGroup) :=
  benchmark.run_groups_sorted.foldl
    (fun acc rg =>
      if (grouped.map Prod.fst).contains rg.algorithm then
        assoc_append acc rg.algorithm rg
      else acc)
    []

/-- Loop body of `_plot_bars_tests` (lines 167-177), analogous to
`mk_series` but over run groups. -/
def mk_series_tests (w : Rat) (f : RunGroup → Except PyErr Rat)
    (add_trend_line : Bool) (p : Nat × String × List RunGroup) :
    Except PyErr BarSeries := do
  let coverage_xs := p.2.2.map (fun rg => (rg.stop_coverage : Rat) + (p.1 : Rat) * w)
  let ys ← mapE f p.2.2
  let trend ←
    if add_trend_line then
      if coverage_xs.isEmpty then
        throw (PyErr.typeError polyfit_empty_msg)
      else
        pure (some (coverage_xs.zip ys))
    else
      pure (none : Option (List (Rat × Rat)))
  pure { label := p.2.1, xs := coverage_xs, heights := ys, trend_fit_input := trend }

/-- Embedding of `BenchmarkPlotter._plot_bars_tests` (lines 150-182): the bar
width divides by the number of generator groups, the series come from the run
groups grouped by algorithm, and the x ticks from the first algorithm bucket
(`StopIteration` when there is none). -/
def plot_bars_tests (benchmark : Benchmark) (grouped : Grouped)
    (f : RunGroup → Except PyErr Rat) (add_trend_line : Bool := true) :
    Except PyErr (List BarSeries × List Int) := do
  if grouped.length = 0 then
    throw PyErr.zeroDivisionError
  let w : Rat := 6 / (grouped.length : Rat)
  let buckets := grouped_run_groups benchmark grouped
  let series ← mapE (mk_series_tests w f add_trend_line) (enumerate 0 buckets)
  match buckets with
  | [] => throw PyErr.stopIteration
  | e :: _ => pure (series, e.2.map (fun rg => rg.stop_coverage))

/-- Embedding of `BenchmarkPlotter._plot_lines` (lines 184-204): one line per
generator group through the raw (stop-coverage, value) points. -/
def plot_lines (grouped : Grouped) (f : BenchmarkGenerator → Except PyErr Rat) :
    Except PyErr (List (String × List (Int × Rat)) × List Int) := do
  let series ← mapE
    (fun e => do
      let ys ← mapE f e.2
      pure (e.1, (e.2.map (fun gen => gen.stop_coverage)).zip ys))
    grouped
  match grouped with
  | [] => throw PyErr.stopIteration
  | e :: _ => pure (series, e.2.map (fun gen => gen.stop_coverage))

/-- Value lambda of `plot_total_time` (line 219).  Every value lambda below
takes the class attribute `BenchmarkPlotter.benchmark` (the process-wide
static set by `create_plots`) as its first argument `static`, so that which
lambdas actually read that implicit state is visible in the embedding: the
body of this one, like all except the two coverage-percentage lambdas,
ignores it. -/
def total_time_value (static : Benchmark) (g : BenchmarkGenerator) : Except PyErr Rat :=
  .ok g.total_generation_time

/-- Value lambda of `plot_total_size` (line 234). -/
def total_size_value (static : Benchmark) (g : BenchmarkGenerator) : Except PyErr Rat :=
  .ok g.total_test_suite_size

/-- Value lambda of `plot_average_time` (line 249). -/
def average_time_value (static : Benchmark) (g : BenchmarkGenerator) : Except PyErr Rat :=
  .ok g.average_generation_time

/-- Value lambda of `plot_average_size` (line 264). -/
def average_size_value (static : Benchmark) (g : BenchmarkGenerator) : Except PyErr Rat :=
  .ok g.average_test_suite_size

/-- Value lambda of `plot_minimum_time` (line 279). -/
def minimum_time_value (static : Benchmark) (g : BenchmarkGenerator) : Except PyErr Rat :=
  .ok g.min_generation_time

/-- Value lambda of `plot_maximum_time` (line 294). -/
def maximum_time_value (static : Benchmark) (g : BenchmarkGenerator) : Except PyErr Rat :=
  .ok g.max_generation_time

/-- Value lambda of `plot_minimum_size` (line 309). -/
def minimum_size_value (static : Benchmark) (g : BenchmarkGenerator) : Except PyErr Rat :=
  .ok g.min_test_suite_size

/-- Value lambda of `plot_maximum_size` (line 324). -/
def maximum_size_value (static : Benchmark) (g : BenchmarkGenerator) : Except PyErr Rat :=
  .ok g.max_test_suite_size

/-- Value lambda of `plot_max_minus_min_size` (line 340). -/
def max_minus_min_size_value (static : Benchmark) (g : BenchmarkGenerator) : Except PyErr Rat :=
  .ok (g.max_test_suite_size - g.min_test_suite_size)

/-- Value lambda of `plot_max_minus_min_time` (line 356). -/
def max_minus_min_time_value (static : Benchmark) (g : BenchmarkGenerator) : Except PyErr Rat :=
  .ok (g.max_generation_time - g.min_generation_time)

/-- Value lambda of `plot_coverage_vs_time` (line 371). -/
def coverage_vs_time_value (static : Benchmark) (g : BenchmarkGenerator) : Except PyErr Rat :=
  .ok g.total_generation_time

/-- Value lambda of `plot_average_size_divided_by_average_time` (lines
388-389): average test-suite size divided by average generation time with
Python division semantics — no guard, so a zero average generation time is a
`ZeroDivisionError`. -/
def size_over_time_value (static : Benchmark) (g : BenchmarkGenerator) : Except PyErr Rat :=
  pyDiv g.average_test_suite_size g.average_generation_time

/-- Value lambda of `plot_average_vertex_percentage_total_visits` (lines
499-502): the count of vertices with a nonzero average visit count, divided
by the model vertex count read from the class attribute
`BenchmarkPlotter.benchmark` (the `static` argument), times 100. -/
def average_vertex_pct_value (static : Benchmark) (g : BenchmarkGenerator) :
    Except PyErr Rat := do
  let q ← pyDiv
    (((g.average_vertex_visits_individual.map Prod.snd).filter (fun v => v != 0)).length : Rat)
    (static.report.model.vertices : Rat)
  pure (q * 100)

/-- Value lambda of `plot_average_edge_percentage_total_visits` (lines
518-521), reading the model edge count from the class attribute. -/
def average_edge_pct_value (static : Benchmark) (g : BenchmarkGenerator) :
    Except PyErr Rat := do
  let q ← pyDiv
    (((g.average_edge_visits_individual.map Prod.snd).filter (fun v => v != 0)).length : Rat)
    (static.report.model.edges : Rat)
  pure (q * 100)

/-- Value lambda of `plot_average_vs_minimum_time` (line 538). -/
def average_vs_minimum_time_value (static : Benchmark) (g : BenchmarkGenerator) :
    Except PyErr Rat :=
  .ok (g.average_generation_time - g.min_generation_time)

/-- Value lambda of `plot_average_vs_minimum_size` (line 555). -/
def average_vs_minimum_size_value (static : Benchmark) (g : BenchmarkGenerator) :
    Except PyErr Rat :=
  .ok (g.average_test_suite_size - g.min_test_suite_size)

/-- Value lambda of `plot_average_test_execution_time` (line 572). -/
def average_test_execution_value (static : Benchmark) (rg : RunGroup) : Except PyErr Rat :=
  .ok rg.average_test_duration

/-- Value lambda of `plot_minimum_test_execution_time` (line 589). -/
def minimum_test_execution_value (static : Benchmark) (rg : RunGroup) : Except PyErr Rat :=
  .ok rg.minimum_test_duration

/-- Value lambda of `plot_maximum_test_execution_time` (line 606). -/
def maximum_test_execution_value (static : Benchmark) (rg : RunGroup) : Except PyErr Rat :=
  .ok rg.maximum_test_duration

/-- Titles and axis labels of the bar/line charts, keyed to the chart
functions below (src/plotters/benchmark_plotter.py lines 206-390 and
486-606). -/
def title_total_time : String := "Total generation time per generator by coverage value"

def title_total_size : String := "Total test suite size per generator by coverage value"

def title_average_time : String := "Average generation time per generator by coverage value"

def title_average_size : String := "Average test suite size per generator by coverage value"

def title_minimum_time : String := "Minimum generation time per generator by coverage value"

def title_maximum_time : String := "Maximum generation time per generator by coverage value"

def title_minimum_size : String := "Minimum test suite size per generator by coverage value"

def title_maximum_size : String := "Maximum test suite size per generator by coverage value"

def title_max_minus_min_size : String :=
  "Difference between maximum and minimum test suite size\nper generator by coverage value"

def title_max_minus_min_time : String :=
  "Difference between maximum and minimum generation time\nper generator by coverage value"

def title_coverage_vs_time : String := "Coverage vs Generation time per generator"

def title_size_over_time : String :=
  "Average test suite size divided by\naverage generation time per generator by coverage value"

def title_average_vertex_pct : String :=
  "Percentage of unique vertices visited\nin an average traversal"

def title_average_edge_pct : String :=
  "Percentage of unique edges visited\nin an average traversal"

def title_average_vs_minimum_time : String :=
  "Average generation time compared to minimum generation time\nper generator by coverage value"

def title_average_vs_minimum_size : String :=
  "Average test suite size compared to minimum test suite size\nper generator by coverage value"

def title_average_test_execution : String :=
  "Average test execution time per generator by coverage value"

def title_minimum_test_execution : String :=
  "Minimum test execution time per generator by coverage value"

def title_maximum_test_execution : String :=
  "Maximum test execution time per generator by coverage value"

def xlabel_coverage : String := "Coverage (%)"

def ylabel_total_time : String := "Total Time (μs)"

def ylabel_total_size : String := "Total Size (element count)"

def ylabel_average_time : String := "Average Time (μs)"

def ylabel_average_size : String := "Average Size (element count)"

def ylabel_minimum_time : String := "Minimum Time (μs)"

def ylabel_maximum_time : String := "Maximum Time (μs)"

def ylabel_minimum_size : String := "Minimum Size (element count)"

def ylabel_maximum_size : String := "Maximum Size (element count)"

def ylabel_difference_count : String := "Difference (element count)"

def ylabel_difference_time : String := "Difference (μs)"

def ylabel_time : String := "Time (μs)"

def ylabel_size_over_time : String := "Size/Time (element count/μs)"

def ylabel_average_pct : String := "Average Percentage (%)"

def ylabel_size : String := "Size (element count)"

def ylabel_visit_count : String := "Visit Count"

def xlabel_vertex : String := "Vertex"

def xlabel_edge : String := "Edge"

/-- Embedding of `BenchmarkPlotter.plot_total_time` (lines 206-219). -/
def plot_total_time (static : Benchmark) (grouped : Grouped) : Except PyErr Chart := do
  let (series, xticks) ← plot_bars grouped (total_time_value static)
  pure (Chart.bars title_total_time xlabel_coverage ylabel_total_time series xticks)

/-- Embedding of `BenchmarkPlotter.plot_total_size` (lines 221-234). -/
def plot_total_size (static : Benchmark) (grouped : Grouped) : Except PyErr Chart := do
  let (series, xticks) ← plot_bars grouped (total_size_value static)
  pure (Chart.bars title_total_size xlabel_coverage ylabel_total_size series xticks)

/-- Embedding of `BenchmarkPlotter.plot_average_time` (lines 236-249). -/
def plot_average_time (static : Benchmark) (grouped : Grouped) : Except PyErr Chart := do
  let (series, xticks) ← plot_bars grouped (average_time_value static)
  pure (Chart.bars title_average_time xlabel_coverage ylabel_average_time series xticks)

/-- Embedding of `BenchmarkPlotter.plot_average_size` (lines 251-264). -/
def plot_average_size (static : Benchmark) (grouped : Grouped) : Except PyErr Chart := do
  let (series, xticks) ← plot_bars grouped (average_size_value static)
  pure (Chart.bars title_average_size xlabel_coverage ylabel_average_size series xticks)

/-- Embedding of `BenchmarkPlotter.plot_minimum_time` (lines 266-279). -/
def plot_minimum_time (static : Benchmark) (grouped : Grouped) : Except PyErr Chart := do
  let (series, xticks) ← plot_bars grouped (minimum_time_value static)
  pure (Chart.bars title_minimum_time xlabel_coverage ylabel_minimum_time series xticks)

/-- Embedding of `BenchmarkPlotter.plot_maximum_time` (lines 281-294). -/
def plot_maximum_time (static : Benchmark) (grouped : Grouped) : Except PyErr Chart := do
  let (series, xticks) ← plot_bars grouped (maximum_time_value static)
  pure (Chart.bars title_maximum_time xlabel_coverage ylabel_maximum_time series xticks)

/-- Embedding of `BenchmarkPlotter.plot_minimum_size` (lines 296-309). -/
def plot_minimum_size (static : Benchmark) (grouped : Grouped) : Except PyErr Chart := do
  let (series, xticks) ← plot_bars grouped (minimum_size_value static)
  pure (Chart.bars title_minimum_size xlabel_coverage ylabel_minimum_size series xticks)

/-- Embedding of `BenchmarkPlotter.plot_maximum_size` (lines 311-324). -/
def plot_maximum_size (static : Benchmark) (grouped : Grouped) : Except PyErr Chart := do
  let (series, xticks) ← plot_bars grouped (maximum_size_value static)
  pure (Chart.bars title_maximum_size xlabel_coverage ylabel_maximum_size series xticks)

/-- Embedding of `BenchmarkPlotter.plot_max_minus_min_size` (lines 326-340). -/
def plot_max_minus_min_size (static : Benchmark) (grouped : Grouped) : Except PyErr Chart := do
  let (series, xticks) ← plot_bars grouped (max_minus_min_size_value static)
  pure (Chart.bars title_max_minus_min_size xlabel_coverage ylabel_difference_count series xticks)

/-- Embedding of `BenchmarkPlotter.plot_max_minus_min_time` (lines 342-356). -/
def plot_max_minus_min_time (static : Benchmark) (grouped : Grouped) : Except PyErr Chart := do
  let (series, xticks) ← plot_bars grouped (max_minus_min_time_value static)
  pure (Chart.bars title_max_minus_min_time xlabel_coverage ylabel_difference_time series xticks)

/-- Embedding of `BenchmarkPlotter.plot_coverage_vs_time` (lines 358-371),
the only line chart. -/
def plot_coverage_vs_time (static : Benchmark) (grouped : Grouped) : Except PyErr Chart := do
  let (series, xticks) ← plot_lines grouped (coverage_vs_time_value static)
  pure (Chart.lines title_coverage_vs_time xlabel_coverage ylabel_time series xticks)

/-- Embedding of `BenchmarkPlotter.plot_average_size_divided_by_average_time`
(lines 373-389), the Size over Time chart. -/
def plot_average_size_divided_by_average_time (static : Benchmark) (grouped : Grouped) :
    Except PyErr Chart := do
  let (series, xticks) ← plot_bars grouped (size_over_time_value static)
  pure (Chart.bars title_size_over_time xlabel_coverage ylabel_size_over_time series xticks)

/-- Embedding of `BenchmarkPlotter.plot_average_vertex_percentage_total_visits`
(lines 486-502); its value lambda reads the class attribute
`BenchmarkPlotter.benchmark`, passed here as `static`. -/
def plot_average_vertex_percentage_total_visits (static : Benchmark) (grouped : Grouped) :
    Except PyErr Chart := do
  let (series, xticks) ← plot_bars grouped (average_vertex_pct_value static)
  pure (Chart.bars title_average_vertex_pct xlabel_coverage ylabel_average_pct series xticks)

/-- Embedding of `BenchmarkPlotter.plot_average_edge_percentage_total_visits`
(lines 504-521); its value lambda reads the class attribute
`BenchmarkPlotter.benchmark`, passed here as `static`. -/
def plot_average_edge_percentage_total_visits (static : Benchmark) (grouped : Grouped) :
    Except PyErr Chart := do
  let (series, xticks) ← plot_bars grouped (average_edge_pct_value static)
  pure (Chart.bars title_average_edge_pct xlabel_coverage ylabel_average_pct series xticks)

/-- Embedding of `BenchmarkPlotter.plot_average_vs_minimum_time`
(lines 523-538). -/
def plot_average_vs_minimum_time (static : Benchmark) (grouped : Grouped) :
    Except PyErr Chart := do
  let (series, xticks) ← plot_bars grouped (average_vs_minimum_time_value static)
  pure (Chart.bars title_average_vs_minimum_time xlabel_coverage ylabel_time series xticks)

/-- Embedding of `BenchmarkPlotter.plot_average_vs_minimum_size`
(lines 540-555). -/
def plot_average_vs_minimum_size (static : Benchmark) (grouped : Grouped) :
    Except PyErr Chart := do
  let (series, xticks) ← plot_bars grouped (average_vs_minimum_size_value static)
  pure (Chart.bars title_average_vs_minimum_size xlabel_coverage ylabel_size series xticks)

/-- Embedding of `BenchmarkPlotter.plot_average_test_execution_time`
(lines 557-572). -/
def plot_average_test_execution_time (benchmark : Benchmark) (grouped : Grouped) :
    Except PyErr Chart := do
  let (series, xticks) ← plot_bars_tests benchmark grouped (average_test_execution_value benchmark)
  pure (Chart.bars title_average_test_execution xlabel_coverage ylabel_average_time series xticks)

/-- Embedding of `BenchmarkPlotter.plot_minimum_test_execution_time`
(lines 574-589). -/
def plot_minimum_test_execution_time (benchmark : Benchmark) (grouped : Grouped) :
    Except PyErr Chart := do
  let (series, xticks) ← plot_bars_tests benchmark grouped (minimum_test_execution_value benchmark)
  pure (Chart.bars title_minimum_test_execution xlabel_coverage ylabel_minimum_time series xticks)

/-- Embedding of `BenchmarkPlotter.plot_maximum_test_execution_time`
(lines 591-606). -/
def plot_maximum_test_execution_time (benchmark : Benchmark) (grouped : Grouped) :
    Except PyErr Chart := do
  let (series, xticks) ← plot_bars_tests benchmark grouped (maximum_test_execution_value benchmark)
  pure (Chart.bars title_maximum_test_execution xlabel_coverage ylabel_maximum_time series xticks)

/-- Message of the `ValueError` matplotlib raises when `ax.hist` is given
`bins=0` (the source passes `bins=len(items)`). -/
def hist_bins_msg : String := "bins must be positive"

/-- One `ax.hist` call of `_plot_histogram` (lines 403-412): the property
mapping's pairs sorted by descending visit count (Python `sorted(...,
reverse=True)` is stable), items are the identifiers and weights the
`int(...)`-truncated counts; `bins=len(items)` raises when the mapping is
empty. -/
def hist_entry (label : String) (d : List (String × Rat)) : Except PyErr HistEntry :=
  let sorted_pairs := d.insertionSort (fun a b => b.2 ≤ a.2)
  let items := sorted_pairs.map Prod.fst
  let weights := sorted_pairs.map (fun p => pyInt p.2)
  if items.isEmpty then
    .error (PyErr.valueError hist_bins_msg)
  else
    .ok { label := label, items := items, weights := weights }

/-- Embedding of `BenchmarkPlotter._plot_histogram` (lines 391-415): for each
generator group, every generator whose stop-coverage equals the requested
coverage value contributes one histogram layer. -/
def plot_histogram (grouped : Grouped)
    (prop : BenchmarkGenerator → List (String × Rat)) (coverage_value : Int) :
    Except PyErr (List HistEntry) := do
  let layers ← mapE
    (fun e => mapE (fun gen => hist_entry e.1 (prop gen))
      (e.2.filter (fun gen => gen.stop_coverage == coverage_value)))
    grouped
  pure layers.flatten

/-- Embedding of `plot_histogram_total_visited_vertices` (lines 417-432). -/
def plot_histogram_total_visited_vertices (grouped : Grouped) (coverage_value : Int) :
    Except PyErr Chart := do
  let entries ← plot_histogram grouped (fun g => g.total_vertex_visits_individual) coverage_value
  pure (Chart.hist ("Vertex total visit count histogram for\ncoverage value "
    ++ toString coverage_value ++ "%") xlabel_vertex ylabel_visit_count entries)

/-- Embedding of `plot_histogram_total_visited_edges` (lines 434-449). -/
def plot_histogram_total_visited_edges (grouped : Grouped) (coverage_value : Int) :
    Except PyErr Chart := do
  let entries ← plot_histogram grouped (fun g => g.total_edge_visits_individual) coverage_value
  pure (Chart.hist ("Edge total visit count histogram for\ncoverage value "
    ++ toString coverage_value ++ "%") xlabel_edge ylabel_visit_count entries)

/-- Embedding of `plot_histogram_average_visited_vertices` (lines 451-467). -/
def plot_histogram_average_visited_vertices (grouped : Grouped) (coverage_value : Int) :
    Except PyErr Chart := do
  let entries ← plot_histogram grouped (fun g => g.average_vertex_visits_individual) coverage_value
  pure (Chart.hist ("Vertex average visit count histogram for\ncoverage value "
    ++ toString coverage_value ++ "%") xlabel_vertex ylabel_visit_count entries)

/-- Embedding of `plot_histogram_average_visited_edges` (lines 469-484). -/
def plot_histogram_average_visited_edges (grouped : Grouped) (coverage_value : Int) :
    Except PyErr Chart := do
  let entries ← plot_histogram grouped (fun g => g.average_edge_visits_individual) coverage_value
  pure (Chart.hist ("Edge average visit count histogram for\ncoverage value "
    ++ toString coverage_value ++ "%") xlabel_edge ylabel_visit_count entries)

/-- Embedding of `BenchmarkPlotter.get_plot_functions` (lines 17-35): the
dictionary of general bar/line chart functions in insertion order.  The
`static` argument stands for the class attribute `BenchmarkPlotter.benchmark`
in scope when the functions run. -/
def get_plot_functions (static : Benchmark) :
    List (String × (Grouped → Except PyErr Chart)) :=
  [("Total Time", plot_total_time static),
   ("Total Size", plot_total_size static),
   ("Average Time", plot_average_time static),
   ("Average Size", plot_average_size static),
   ("Minimum Time", plot_minimum_time static),
   ("Maximum Time", plot_maximum_time static),
   ("Minimum Size", plot_minimum_size static),
   ("Maximum Size", plot_maximum_size static),
   ("Max-Min Size", plot_max_minus_min_size static),
   ("Max-Min Time", plot_max_minus_min_time static),
   ("Coverage vs Time", plot_coverage_vs_time static),
   ("Size over Time", plot_average_size_divided_by_average_time static),
   ("Average Vertex Visits %", plot_average_vertex_percentage_total_visits static),
   ("Average Edge Visits %", plot_average_edge_percentage_total_visits static),
   ("Average vs Minimum Time", plot_average_vs_minimum_time static),
   ("Average vs Minimum Size", plot_average_vs_minimum_size static)]

/-- Embedding of `BenchmarkPlotter.get_per_coverage_plot_functions`
(lines 37-47). -/
def get_per_coverage_plot_functions :
    List (String × (Grouped → Int → Except PyErr Chart)) :=
  [("Histogram Total Visited Vertices", plot_histogram_total_visited_vertices),
   ("Histogram Total Visited Edges", plot_histogram_total_visited_edges),
   ("Histogram Average Visited Vertices", plot_histogram_average_visited_vertices),
   ("Histogram Average Visited Edges", plot_histogram_average_visited_edges)]

/-- Embedding of `BenchmarkPlotter.get_test_execution_plot_functions`
(lines 49-59). -/
def get_test_execution_plot_functions :
    List (String × (Benchmark → Grouped → Except PyErr Chart)) :=
  [("Average Test Execution Time", plot_average_test_execution_time),
   ("Minimum Test Execution Time", plot_minimum_test_execution_time),
   ("Maximum Test Execution Time", plot_maximum_test_execution_time)]

/-- The key names of the general plots, in the dictionary order of
`get_plot_functions`. -/
def general_plot_names : List String :=
  ["Total Time", "Total Size", "Average Time", "Average Size", "Minimum Time",
   "Maximum Time", "Minimum Size", "Maximum Size", "Max-Min Size", "Max-Min Time",
   "Coverage vs Time", "Size over Time", "Average Vertex Visits %",
   "Average Edge Visits %", "Average vs Minimum Time", "Average vs Minimum Size"]

/-- The key names of the per-coverage histogram plots. -/
def per_coverage_plot_names : List String :=
  ["Histogram Total Visited Vertices", "Histogram Total Visited Edges",
   "Histogram Average Visited Vertices", "Histogram Average Visited Edges"]

/-- The key names of the test-execution plots. -/
def test_execution_plot_names : List String :=
  ["Average Test Execution Time", "Minimum Test Execution Time",
   "Maximum Test Execution Time"]

/-- The coverage-value collection loop of `create_plots` (lines 92-97):
every stop-coverage value, first-occurrence order, duplicates skipped. -/
def collect_coverage_values (grouped : Grouped) : List Int :=
  grouped.foldl
    (fun acc e =>
      e.2.foldl
        (fun acc2 gen =>
          if gen.stop_coverage ∈ acc2 then acc2 else acc2 ++ [gen.stop_coverage])
        acc)
    []

/-- The collected coverage values after `coverage_values.sort()` (line 99):
ascending order. -/
def coverage_values (grouped : Grouped) : List Int :=
  (collect_coverage_values grouped).insertionSort (fun a b => a ≤ b)

/-- The dictionary key of a per-coverage chart (line 108):
`f-string {name} - {coverage}%`. -/
def per_coverage_key (name : String) (coverage : Int) : String :=
  name ++ " - " ++ toString coverage ++ "%"

/-- Embedding of `BenchmarkPlotter.create_plots` (lines 61-110).  The
`benchmark` argument is stored into the class attribute
`BenchmarkPlotter.benchmark` (line 71), here the `static` value handed to the
general plot functions.  The result is the plots dictionary in insertion
order: general charts, then (only when every run group has
`successful_runs`) the test-execution charts, then for each per-coverage
plot function one chart per collected coverage value in ascending order. -/
def create_plots (benchmark : Benchmark) (grouped_generators : Grouped) :
    Except PyErr (List (String × Chart)) := do
  let static := benchmark
  let general ← mapE
    (fun p => Except.map (fun c => (p.1, c)) (p.2 grouped_generators))
    (get_plot_functions static)
  let testPlots ←
    if benchmark.run_groups.all (fun rg => rg.successful_runs) then
      mapE
        (fun p => Except.map (fun c => (p.1, c)) (p.2 benchmark grouped_generators))
        get_test_execution_plot_functions
    else
      pure []
  let perCov ← mapE
    (fun p => mapE
      (fun c => Except.map (fun chart => (per_coverage_key p.1 c, chart)) (p.2 grouped_generators c))
      (coverage_values grouped_generators))
    get_per_coverage_plot_functions
  pure (general ++ testPlots ++ perCov.flatten)

/-- Modelled from the spec (§4.2): `filter_grouped_generators` of
`utils/benchmark_filter.py`, which is not under `src/`.  If the whitelist is
non-empty only names present in it are retained; if the blacklist is
non-empty names present in it are then removed; whitelist first, blacklist
second; unknown names match nothing and raise nothing. -/
def filter_grouped_generators (grouped : Grouped) (whitelist blacklist : List String) :
    Grouped :=
  let whitelisted :=
    if whitelist.isEmpty then grouped
    else grouped.filter (fun e => whitelist.contains e.1)
  if blacklist.isEmpty then whitelisted
  else whitelisted.filter (fun e => !(blacklist.contains e.1))

/-- The scalar aggregates of one generator group, as serialised by the
statistics builder. -/
structure GroupStats where
  total_generation_time : Rat
  average_generation_time : Rat
  min_generation_time : Rat
  max_generation_time : Rat
  total_test_suite_size : Rat
  average_test_suite_size : Rat
  min_test_suite_size : Rat
  max_test_suite_size : Rat
deriving DecidableEq

/-- Modelled from the spec (§4.4): `BenchmarkStatistics.create_statistics` of
`statistics/benchmark_statistics.py`, which is not under `src/`: a nested
JSON-serialisable structure of the scalar aggregates of §4.3, keyed by
generator name and then by stop-coverage. -/
def create_statistics (grouped : Grouped) : List (String × List (Int × GroupStats)) :=
  grouped.map
    (fun e =>
      (e.1, e.2.map (fun g =>
        (g.stop_coverage,
         { total_generation_time := g.total_generation_time,
           average_generation_time := g.average_generation_time,
           min_generation_time := g.min_generation_time,
           max_generation_time := g.max_generation_time,
           total_test_suite_size := g.total_test_suite_size,
           average_test_suite_size := g.average_test_suite_size,
           min_test_suite_size := g.min_test_suite_size,
           max_test_suite_size := g.max_test_suite_size }))))

/-- Contents written to the output tree by the report factory.  JSON and PNG
serialisation are external (spec §1), so a write records the structured data
handed to the serialiser. -/
inductive WriteContent
  | mkdir
  | reportJson (r : Report)
  | statisticsJson (s : List (String × List (Int × GroupStats)))
  | imagePng (c : Chart)
  | htmlDoc (benchmark_name : String) (image_names : List String)
  | pdfDoc
deriving DecidableEq

/-- One file-system write performed by the report factory. -/
structure FileWrite where
  path : String
  content : WriteContent
deriving DecidableEq

/-- Message of the `TypeError` CPython raises for the calls
`BenchmarkPlotter.create_plots(grouped_generators)` in `create_raw_report`
(line 45) and `create_html_report` (line 65): `create_plots` has two
required positional parameters (`benchmark`, `grouped_generators`, line 62)
and the call supplies one. -/
def create_plots_missing_arg_msg : String :=
  "create_plots() missing 1 required positional argument: grouped_generators"

/-- Embedding of the one-positional-argument call
`BenchmarkPlotter.create_plots(grouped_generators)` (report_factory.py lines
45 and 65).  CPython binds the single argument to the first parameter
`benchmark` and raises `TypeError` for the missing second required parameter
`grouped_generators` before the body of `create_plots` (embedded above)
runs, whatever the argument's value. -/
def call_create_plots_one_arg (first_positional : Grouped) :
    Except PyErr (List (String × Chart)) :=
  .error (PyErr.typeError create_plots_missing_arg_msg)

/-- Embedding of `ReportFactory.create_raw_report` (report_factory.py lines
38-57).  Returns the file writes performed, in order, paired with the
outcome: the grouped generators are filtered, statistics are computed, then
`BenchmarkPlotter.create_plots(grouped_generators)` is called with one
positional argument; when that call returns, `benchmarks.json`,
`statistics.json` and one PNG per plot under `images/` are written. -/
def create_raw_report (benchmark : Benchmark) (output : String)
    (whitelist blacklist : List String) : List FileWrite × Except PyErr Unit :=
  let grouped_generators :=
    filter_grouped_generators benchmark.report.generators_grouped whitelist blacklist
  let statistics := create_statistics grouped_generators
  match call_create_plots_one_arg grouped_generators with
  | .error e => ([], .error e)
  | .ok plots =>
    ({ path := output ++ "/benchmarks.json",
       content := WriteContent.reportJson benchmark.report } ::
     { path := output ++ "/statistics.json",
       content := WriteContent.statisticsJson statistics } ::
     { path := output ++ "/images", content := WriteContent.mkdir } ::
     plots.map (fun p =>
       { path := output ++ "/images/" ++ p.1 ++ ".png",
         content := WriteContent.imagePng p.2 }),
     .ok ())

/-- Embedding of `ReportFactory.create_html_report` (lines 59-95): filter,
call `BenchmarkPlotter.create_plots(grouped_generators)` with one positional
argument, compute statistics, then write the images directory, one PNG per
plot and `index.html` referencing the images. -/
def create_html_report (benchmark : Benchmark) (output : String)
    (whitelist blacklist : List String) : List FileWrite × Except PyErr Unit :=
  let grouped_generators :=
    filter_grouped_generators benchmark.report.generators_grouped whitelist blacklist
  match call_create_plots_one_arg grouped_generators with
  | .error e => ([], .error e)
  | .ok plots =>
    let _statistics := create_statistics grouped_generators
    ({ path := output ++ "/images", content := WriteContent.mkdir } ::
     plots.map (fun p =>
       { path := output ++ "/images/" ++ p.1 ++ ".png",
         content := WriteContent.imagePng p.2 }) ++
     [{ path := output ++ "/index.html",
        content := WriteContent.htmlDoc benchmark.name (plots.map Prod.fst) }],
     .ok ())

/-- Embedding of `ReportFactory.create_pdf_report` (lines 97-126): create
`<output>/temp` (`exist_ok=False`; the embedding assumes the directory does
not already exist, file-system state being external), generate the HTML
report into it, then render `report.pdf` via the external headless browser.
The interactive delete prompt and `rmtree` are terminal interaction outside
this model. -/
def create_pdf_report (benchmark : Benchmark) (output : String)
    (whitelist blacklist : List String) : List FileWrite × Except PyErr Unit :=
  let temp_dir := output ++ "/temp"
  let mk : FileWrite := { path := temp_dir, content := WriteContent.mkdir }
  match create_html_report benchmark temp_dir whitelist blacklist with
  | (writes, .error e) => (mk :: writes, .error e)
  | (writes, .ok _) =>
    (mk :: writes ++ [{ path := output ++ "/report.pdf", content := WriteContent.pdfDoc }],
     .ok ())

/-- Embedding of Python `str.lower()` as used by `create_report`: ASCII
lower-casing, character by character (the report-type strings concerned are
ASCII). -/
def pyLower (s : String) : String := String.mk (s.data.map Char.toLower)

/-- The `ValueError` message of `create_report` for an unknown report type
(line 36). -/
def unknown_report_type_msg (report_type : String) : String :=
  "Unknown report type \"" ++ report_type ++ "\""

/-- Embedding of `ReportFactory.create_report` (lines 19-36): dispatch on the
lower-cased report type to the HTML, PDF or raw report; any other string
raises `ValueError` before any file-system operation. -/
def create_report (report_type : String) (benchmark : Benchmark) (output : String)
    (whitelist blacklist : List String) : List FileWrite × Except PyErr Unit :=
  if pyLower report_type = "html" then
    create_html_report benchmark output whitelist blacklist
  else if pyLower report_type = "pdf" then
    create_pdf_report benchmark output whitelist blacklist
  else if pyLower report_type = "raw_data" then
    create_raw_report benchmark output whitelist blacklist
  else
    ([], .error (PyErr.valueError (unknown_report_type_msg report_type)))

/-- A parsed JSON value as a Python object (JSON parsing itself is an
external collaborator, spec §1). -/
inductive PyObj
  | null
  | bool (b : Bool)
  | num (n : Int)
  | str (s : String)
  | list (items : List PyObj)
  | dict (entries : List (String × PyObj))

/-- Embedding of `Path.read_text` against an external file system `fs`
mapping existing paths to their contents: a missing file raises
`FileNotFoundError`. -/
def read_text (fs : String → Option String) (file : String) : Except PyErr String :=
  match fs file with
  | none => .error PyErr.fileNotFoundError
  | some s => .ok s

/-- Embedding of `json.loads` against an external parser `loads`
(serialisation is out of scope, spec §1): unparseable content raises
`JSONDecodeError`. -/
def json_loads (loads : String → Option PyObj) (s : String) : Except PyErr PyObj :=
  match loads s with
  | none => .error PyErr.jsonDecodeError
  | some v => .ok v

/-- Embedding of the `BenchmarkRun` record (src/models/benchmark_run.py
lines 5-20). -/
structure BenchmarkRun where
  path : PyObj
  report : PyObj
  test_results : PyObj

/-- Embedding of `BenchmarkRun.from_files` (src/models/benchmark_run.py
lines 22-39) over the external file system `fs` and JSON parser `loads`: the
path file and the report file are read and parsed unconditionally; the test
results file is read and parsed only if it exists, and resolves to the empty
mapping otherwise. -/
def BenchmarkRun.from_files (loads : String → Option PyObj) (fs : String → Option String)
    (path_file report_file test_results_file : String) : Except PyErr BenchmarkRun := do
  let path ← json_loads loads (← read_text fs path_file)
  let report ← json_loads loads (← read_text fs report_file)
  let test_results ←
    if (fs test_results_file).isSome then
      json_loads loads (← read_text fs test_results_file)
    else
      pure (PyObj.dict [])
  pure { path := path, report := report, test_results := test_results }

/-- A concrete benchmark generator used by the concrete evaluations below:
nonzero times and sizes and nonempty visit mappings, so no Python exception
fires on it. -/
def mkGen (name : String) (cov : Int) (t : Rat) : BenchmarkGenerator :=
  { generator_name := name, stop_coverage := cov,
    total_generation_time := t, average_generation_time := t,
    min_generation_time := t, max_generation_time := t,
    total_test_suite_size := 2 * t, average_test_suite_size := 2 * t,
    min_test_suite_size := t, max_test_suite_size := 3 * t,
    total_vertex_visits_individual := [("v1", t)],
    total_edge_visits_individual := [("e1", t)],
    average_vertex_visits_individual := [("v1", t)],
    average_edge_visits_individual := [("e1", t)] }

/-- A concrete benchmark with the given model counts and run groups. -/
def mkBench (vs es : Int) (rgs : List RunGroup) (grouped : Grouped) : Benchmark :=
  { name := "bench",
    report := { model := { vertices := vs, edges := es }, generators_grouped := grouped },
    run_groups := rgs }

/-- A concrete run group. -/
def mkRunGroup (alg : String) (cov : Int) (ok : Bool) : RunGroup :=
  { algorithm := alg, stop_coverage := cov, successful_runs := ok,
    average_test_duration := 7, minimum_test_duration := 5, maximum_test_duration := 9 }

/-- Fallback chart for extracting from `Except` values known to be `ok`. -/
def empty_chart : Chart :=
  Chart.bars polyfit_empty_msg polyfit_empty_msg polyfit_empty_msg [] []

/-- Concrete grouped mapping for the static-state analysis: one generator
group. -/
def c2_grouped : Grouped := [("A", [mkGen ("A") 50 10])]

/-- Concrete benchmark whose model has 2 vertices and 2 edges. -/
def c2_b1 : Benchmark := mkBench 2 2 [] c2_grouped

/-- Concrete benchmark identical to `c2_b1` except 4 vertices and 4 edges. -/
def c2_b2 : Benchmark := mkBench 4 4 [] c2_grouped

/-- Vertex-percentage chart rendered with `c2_b1` as the class attribute. -/
def c2_chart_v1 : Chart :=
  (plot_average_vertex_percentage_total_visits c2_b1 c2_grouped).toOption.getD empty_chart

/-- Vertex-percentage chart rendered with `c2_b2` as the class attribute. -/
def c2_chart_v2 : Chart :=
  (plot_average_vertex_percentage_total_visits c2_b2 c2_grouped).toOption.getD empty_chart

/-- Edge-percentage chart rendered with `c2_b1` as the class attribute. -/
def c2_chart_e1 : Chart :=
  (plot_average_edge_percentage_total_visits c2_b1 c2_grouped).toOption.getD empty_chart

/-- Edge-percentage chart rendered with `c2_b2` as the class attribute. -/
def c2_chart_e2 : Chart :=
  (plot_average_edge_percentage_total_visits c2_b2 c2_grouped).toOption.getD empty_chart

/-- Concrete grouped mapping on which `create_plots` succeeds: one group,
one generator at coverage 50. -/
def c4_grouped : Grouped := [("A", [mkGen ("A") 50 10])]

/-- Concrete benchmark with one successful run group matching group A. -/
def c4_bench : Benchmark := mkBench 2 2 [mkRunGroup ("A") 50 true] c4_grouped

/-- The plots produced by `create_plots` on the concrete input. -/
def c4_plots : List (String × Chart) :=
  (create_plots c4_bench c4_grouped).toOption.getD []

/-- Concrete grouped mapping with two coverage values, inserted out of
order. -/
def c5_grouped : Grouped := [("A", [mkGen ("A") 100 10, mkGen ("A") 50 20])]

/-- Concrete benchmark with an unsuccessful run group, so the
test-execution family is skipped. -/
def c5_bench : Benchmark := mkBench 2 2 [mkRunGroup ("A") 50 false] c5_grouped

/-- The plots produced by `create_plots` on the two-coverage input. -/
def c5_plots : List (String × Chart) :=
  (create_plots c5_bench c5_grouped).toOption.getD []

/-- Concrete two-group mapping for the trend-line analysis: both generators
at stop-coverage 50, so the bar offset of the second series is visible. -/
def c6_grouped : Grouped := [("A", [mkGen ("A") 50 10]), ("B", [mkGen ("B") 50 20])]

/-- Class-attribute benchmark for the trend-line analysis (unused by the
total-time value lambda). -/
def c6_static : Benchmark := mkBench 2 2 [] c6_grouped

/-- The bar series of the Total Time chart on `c6_grouped`. -/
def c6_series : List BarSeries :=
  ((plot_bars c6_grouped (total_time_value c6_static)).toOption.getD ([], [])).1

/-- The (coverage, value) pairs per series as the spec words them: the raw
stop-coverage values zipped with the series values. -/
def c6_raw_pairs : List (List (Rat × Rat)) :=
  c6_grouped.map
    (fun e =>
      (e.2.map (fun g => (g.stop_coverage : Rat))).zip
        (e.2.map (fun g => g.total_generation_time)))

/-- Concrete three-group mapping for the trend-line witness. -/
def c6w_grouped : Grouped :=
  [("A", [mkGen ("A") 50 10]), ("B", [mkGen ("B") 50 20]), ("C", [mkGen ("C") 50 30])]

/-- Class-attribute benchmark for the trend-line witness. -/
def c6w_static : Benchmark := mkBench 2 2 [] c6w_grouped

/-- Value lambda used in the trend-line witness. -/
def c6w_value : BenchmarkGenerator → Except PyErr Rat := total_time_value c6w_static

/-- The pair returned by `plot_bars` on the witness input. -/
def c6w_pair : List BarSeries × List Int :=
  (plot_bars c6w_grouped c6w_value).toOption.getD ([], [])

/-- Concrete grouped mapping for the filtering scenarios. -/
def c7_g : Grouped := [("A", [mkGen ("A") 50 10]), ("B", [mkGen ("B") 50 20])]

/-- A generator whose average generation time is nonzero. -/
def c8_gen_ok : BenchmarkGenerator := mkGen ("A") 50 5

/-- A generator whose average generation time is zero. -/
def c8_gen_zero : BenchmarkGenerator := mkGen ("A") 50 0

/-- Class-attribute benchmark for the Size over Time evaluations. -/
def c8_static : Benchmark := mkBench 2 2 [] [("A", [c8_gen_ok])]

/-- Concrete external JSON parser for the run-loader scenarios: only the
content `good` parses. -/
def c9_loads : String → Option PyObj :=
  fun s => if s = "good" then some (PyObj.num 1) else none

/-- File system where path and report files hold parseable content and the
test-results file is absent. -/
def c9_fs_no_tests : String → Option String :=
  fun f => if f = "p" then some ("good") else if f = "r" then some ("good") else none

/-- File system with no files at all. -/
def c9_fs_empty : String → Option String := fun _ => none

/-- File system where the path file holds unparseable content. -/
def c9_fs_bad_path : String → Option String :=
  fun f => if f = "p" then some ("bad") else none

/-- File system holding only a parseable path file, no report file. -/
def c9_fs_no_report : String → Option String :=
  fun f => if f = "p" then some ("good") else none

/-- File system where the report file holds unparseable content. -/
def c9_fs_bad_report : String → Option String :=
  fun f => if f = "p" then some ("good") else if f = "r" then some ("bad") else none

/-- Concrete benchmark for the report-dispatch evaluations. -/
def c10_bench : Benchmark := mkBench 2 2 [] []

/-- Concrete benchmark for the unknown-report-type evaluation. -/
def c3_bench : Benchmark := mkBench 2 2 [] []

/-- The x position of the first trend-fit pair of the second series of a
list of trend-fit inputs (0 when absent): used to compare fit inputs
numerically. -/
def second_first_x (l : List (Option (List (Rat × Rat)))) : Rat :=
  match l with
  | _ :: some ((x, _) :: _) :: _ => x
  | _ => 0

/-- The first bar height of a bar chart (0 for other shapes): used to
compare two rendered charts numerically. -/
def chart_first_height (c : Chart) : Rat :=
  match c with
  | Chart.bars _ _ _ (s :: _) _ =>
    match s.heights with
    | h :: _ => h
    | [] => 0
  | _ => 0

theorem error_bind {α β : Type} (e : PyErr) (f : α → Except PyErr β) :
    (Except.error e >>= f) = Except.error e := rfl

theorem ok_bind {α β : Type} (a : α) (f : α → Except PyErr β) :
    (Except.ok a >>= f) = f a := rfl

theorem pure_eq_ok {α : Type} (a : α) : (pure a : Except PyErr α) = Except.ok a := rfl

theorem throw_eq_error {α : Type} (e : PyErr) : (throw e : Except PyErr α) = Except.error e := rfl

theorem throwThe_eq_error {α : Type} (e : PyErr) :
    (throwThe PyErr e : Except PyErr α) = Except.error e := rfl

theorem monadExceptOf_throw_eq_error {α : Type} (e : PyErr) :
    (MonadExceptOf.throw e : Except PyErr α) = Except.error e := rfl

theorem raw_report_result (b : Benchmark) (o : String) (w bl : List String) :
    create_raw_report b o w bl =
      ([], Except.error (PyErr.typeError create_plots_missing_arg_msg)) := rfl

theorem html_report_result (b : Benchmark) (o : String) (w bl : List String) :
    create_html_report b o w bl =
      ([], Except.error (PyErr.typeError create_plots_missing_arg_msg)) := rfl

theorem pdf_report_result (b : Benchmark) (o : String) (w bl : List String) :
    create_pdf_report b o w bl =
      ([{ path := o ++ "/temp", content := WriteContent.mkdir }],
       Except.error (PyErr.typeError create_plots_missing_arg_msg)) := rfl

/-- C1: the raw_data path is claimed to write the full report JSON, the
statistics JSON and one PNG per chart; in the code `create_raw_report`
invokes `BenchmarkPlotter.create_plots` with a single argument while
`create_plots` has two required positional parameters, so for every
benchmark, output directory, whitelist and blacklist the call raises
`TypeError` and the raw-data path performs no file write at all: none of the
three artifact kinds is produced. -/
theorem raw_report_typeerror_no_artifacts :
    ∀ (benchmark : Benchmark) (output : String) (whitelist blacklist : List String),
      create_raw_report benchmark output whitelist blacklist =
        ([], Except.error (PyErr.typeError create_plots_missing_arg_msg)) :=
  fun b o w bl => raw_report_result b o w bl

/-- C3: for every report-type string whose lower-cased form is none of
html, pdf and raw_data, `create_report` returns the descriptive
`ValueError` of line 36 having performed no file write, so no output
artifact is produced for an unknown report type. -/
theorem unknown_report_type_valueerror_no_io :
    ∀ (report_type : String) (benchmark : Benchmark) (output : String)
      (whitelist blacklist : List String),
      pyLower report_type ≠ "html" →
      pyLower report_type ≠ "pdf" →
      pyLower report_type ≠ "raw_data" →
      create_report report_type benchmark output whitelist blacklist =
        ([], Except.error (PyErr.valueError (unknown_report_type_msg report_type))) := by
  intro rt b o w bl h1 h2 h3
  simp [create_report, h1, h2, h3]

/-- Witness for C3 at the spec's own example: report type xml produces the
`ValueError` and zero file writes. -/
theorem unknown_report_type_witness :
    create_report ("xml") c3_bench ("out") [] [] =
      ([], Except.error (PyErr.valueError (unknown_report_type_msg ("xml")))) :=
  unknown_report_type_valueerror_no_io ("xml") c3_bench ("out") [] []
    (by decide) (by decide) (by decide)

/-- C10: report-type matching is case-insensitive: whenever the lower-cased
report type is html, pdf or raw_data, `create_report` dispatches to the
corresponding report mode, and it raises `ValueError` exactly when the
lower-cased report type is none of those three. -/
theorem report_type_case_insensitive :
    ∀ (report_type : String) (benchmark : Benchmark) (output : String)
      (whitelist blacklist : List String),
      (pyLower report_type = "html" →
        create_report report_type benchmark output whitelist blacklist =
          create_html_report benchmark output whitelist blacklist) ∧
      (pyLower report_type = "pdf" →
        create_report report_type benchmark output whitelist blacklist =
          create_pdf_report benchmark output whitelist blacklist) ∧
      (pyLower report_type = "raw_data" →
        create_report report_type benchmark output whitelist blacklist =
          create_raw_report benchmark output whitelist blacklist) ∧
      ((∃ msg, (create_report report_type benchmark output whitelist blacklist).2 =
          Except.error (PyErr.valueError msg)) ↔
        pyLower report_type ≠ "html" ∧ pyLower report_type ≠ "pdf" ∧
          pyLower report_type ≠ "raw_data") := by
  intro rt b o w bl
  refine ⟨?_, ?_, ?_, ?_⟩
  · intro h
    simp [create_report, h]
  · intro h
    simp [create_report, h]
  · intro h
    simp [create_report, h]
  · constructor
    · rintro ⟨msg, hm⟩
      by_cases h1 : pyLower rt = "html"
      · simp [create_report, h1, html_report_result] at hm
      · by_cases h2 : pyLower rt = "pdf"
        · simp [create_report, h1, h2, pdf_report_result] at hm
        · by_cases h3 : pyLower rt = "raw_data"
          · simp [create_report, h1, h2, h3, raw_report_result] at hm
          · exact ⟨h1, h2, h3⟩
    · rintro ⟨h1, h2, h3⟩
      exact ⟨unknown_report_type_msg rt, by simp [create_report, h1, h2, h3]⟩

/-- Witness for C10: upper- and mixed-case report types dispatch to the
corresponding modes, exercising each recognised kind. -/
theorem report_type_case_insensitive_witness :
    (create_report ("HTML") c10_bench ("out") [] [] =
      create_html_report c10_bench ("out") [] []) ∧
    (create_report ("Pdf") c10_bench ("out") [] [] =
      create_pdf_report c10_bench ("out") [] []) ∧
    (create_report ("RAW_data") c10_bench ("out") [] [] =
      create_raw_report c10_bench ("out") [] []) :=
  ⟨(report_type_case_insensitive ("HTML") c10_bench ("out") [] []).1 (by decide),
   (report_type_case_insensitive ("Pdf") c10_bench ("out") [] []).2.1 (by decide),
   (report_type_case_insensitive ("RAW_data") c10_bench ("out") [] []).2.2.1 (by decide)⟩

/-- C8: the Size over Time chart value is average test-suite size divided by
average generation time with Python division semantics and no guard: when
the average generation time is nonzero the value is the exact quotient, and
when it is zero the computation raises `ZeroDivisionError`, which also
aborts the Size over Time chart itself. -/
theorem size_over_time_division :
    ∀ (static : Benchmark) (g : BenchmarkGenerator) (n : String),
      (g.average_generation_time ≠ 0 →
        size_over_time_value static g =
          Except.ok (g.average_test_suite_size / g.average_generation_time)) ∧
      (g.average_generation_time = 0 →
        size_over_time_value static g = Except.error PyErr.zeroDivisionError) ∧
      (g.average_generation_time = 0 →
        plot_average_size_divided_by_average_time static [(n, [g])] =
          Except.error PyErr.zeroDivisionError) := by
  intro static g n
  refine ⟨?_, ?_, ?_⟩
  · intro h
    simp [size_over_time_value, pyDiv, h]
  · intro h
    simp [size_over_time_value, pyDiv, h]
  · intro h
    simp [plot_average_size_divided_by_average_time, plot_bars, mapE, enumerate,
      mk_series, size_over_time_value, pyDiv, h, error_bind, ok_bind, pure_eq_ok, throw]

/-- Witness for C8: a generator with average generation time 5 yields the
quotient, one with average generation time 0 raises, and the Size over Time
chart on the zero generator raises. -/
theorem size_over_time_division_witness :
    (size_over_time_value c8_static c8_gen_ok =
      Except.ok (c8_gen_ok.average_test_suite_size / c8_gen_ok.average_generation_time)) ∧
    (size_over_time_value c8_static c8_gen_zero = Except.error PyErr.zeroDivisionError) ∧
    (plot_average_size_divided_by_average_time c8_static [(("A" : String), [c8_gen_zero])] =
      Except.error PyErr.zeroDivisionError) :=
  ⟨(size_over_time_division c8_static c8_gen_ok ("A")).1 (by decide),
   (size_over_time_division c8_static c8_gen_zero ("A")).2.1 (by decide),
   (size_over_time_division c8_static c8_gen_zero ("A")).2.2 (by decide)⟩

/-- C9: `BenchmarkRun.from_files` treats the test-results file as optional —
when it does not exist the run record's `testResults` is the empty mapping
and no error is raised for that file — while the path file and the report
file are read and parsed unconditionally, their absence raising
`FileNotFoundError` and unparseable content raising `JSONDecodeError`. -/
theorem from_files_optional_test_results :
    ∀ (loads : String → Option PyObj) (fs : String → Option String)
      (path_file report_file test_results_file : String),
      (∀ sp vp sr vr,
        fs path_file = some sp → loads sp = some vp →
        fs report_file = some sr → loads sr = some vr →
        fs test_results_file = none →
        BenchmarkRun.from_files loads fs path_file report_file test_results_file =
          Except.ok { path := vp, report := vr, test_results := PyObj.dict [] }) ∧
      (fs path_file = none →
        BenchmarkRun.from_files loads fs path_file report_file test_results_file =
          Except.error PyErr.fileNotFoundError) ∧
      (∀ sp, fs path_file = some sp → loads sp = none →
        BenchmarkRun.from_files loads fs path_file report_file test_results_file =
          Except.error PyErr.jsonDecodeError) ∧
      (∀ sp vp, fs path_file = some sp → loads sp = some vp → fs report_file = none →
        BenchmarkRun.from_files loads fs path_file report_file test_results_file =
          Except.error PyErr.fileNotFoundError) ∧
      (∀ sp vp sr, fs path_file = some sp → loads sp = some vp →
        fs report_file = some sr → loads sr = none →
        BenchmarkRun.from_files loads fs path_file report_file test_results_file =
          Except.error PyErr.jsonDecodeError) := by
  intro loads fs p r t
  refine ⟨?_, ?_, ?_, ?_, ?_⟩
  · intro sp vp sr vr h1 h2 h3 h4 h5
    simp [BenchmarkRun.from_files, read_text, json_loads, h1, h2, h3, h4, h5,
      error_bind, ok_bind, pure_eq_ok]
  · intro h1
    simp [BenchmarkRun.from_files, read_text, json_loads, h1,
      error_bind, ok_bind, pure_eq_ok]
  · intro sp h1 h2
    simp [BenchmarkRun.from_files, read_text, json_loads, h1, h2,
      error_bind, ok_bind, pure_eq_ok]
  · intro sp vp h1 h2 h3
    simp [BenchmarkRun.from_files, read_text, json_loads, h1, h2, h3,
      error_bind, ok_bind, pure_eq_ok]
  · intro sp vp sr h1 h2 h3 h4
    simp [BenchmarkRun.from_files, read_text, json_loads, h1, h2, h3, h4,
      error_bind, ok_bind, pure_eq_ok]

/-- Witness for C9: concrete file systems exercising the missing-test-file
success, the missing and unparseable path file, and the missing and
unparseable report file. -/
theorem from_files_optional_test_results_witness :
    (BenchmarkRun.from_files c9_loads c9_fs_no_tests ("p") ("r") ("t") =
      Except.ok { path := PyObj.num 1, report := PyObj.num 1, test_results := PyObj.dict [] }) ∧
    (BenchmarkRun.from_files c9_loads c9_fs_empty ("p") ("r") ("t") =
      Except.error PyErr.fileNotFoundError) ∧
    (BenchmarkRun.from_files c9_loads c9_fs_bad_path ("p") ("r") ("t") =
      Except.error PyErr.jsonDecodeError) ∧
    (BenchmarkRun.from_files c9_loads c9_fs_no_report ("p") ("r") ("t") =
      Except.error PyErr.fileNotFoundError) ∧
    (BenchmarkRun.from_files c9_loads c9_fs_bad_report ("p") ("r") ("t") =
      Except.error PyErr.jsonDecodeError) :=
  ⟨(from_files_optional_test_results c9_loads c9_fs_no_tests ("p") ("r") ("t")).1
      ("good") (PyObj.num 1) ("good") (PyObj.num 1) rfl rfl rfl rfl rfl,
   (from_files_optional_test_results c9_loads c9_fs_empty ("p") ("r") ("t")).2.1 rfl,
   (from_files_optional_test_results c9_loads c9_fs_bad_path ("p") ("r") ("t")).2.2.1
      ("bad") rfl rfl,
   (from_files_optional_test_results c9_loads c9_fs_no_report ("p") ("r") ("t")).2.2.2.1
      ("good") (PyObj.num 1) rfl rfl rfl,
   (from_files_optional_test_results c9_loads c9_fs_bad_report ("p") ("r") ("t")).2.2.2.2
      ("good") (PyObj.num 1) ("bad") rfl rfl rfl rfl⟩

/-- C7: filtering (spec-modelled, `utils/benchmark_filter.py` is not under
`src/`) applies the whitelist first and the blacklist second: whitelist
[A, B] combined with blacklist [B] yields exactly the mapping restricted to
A; an empty whitelist with blacklist [X] removes exactly X; and a name
unknown to the mapping is silently ignored in either list. -/
theorem filter_whitelist_then_blacklist :
    ∀ (g : Grouped) (A B X x : String) (w bl : List String),
      (A ≠ B →
        filter_grouped_generators g [A, B] [B] =
          g.filter (fun e => decide (e.1 = A))) ∧
      (filter_grouped_generators g [] [X] =
        g.filter (fun e => !(decide (e.1 = X)))) ∧
      (w ≠ [] → (∀ e ∈ g, e.1 ≠ x) →
        filter_grouped_generators g (x :: w) bl = filter_grouped_generators g w bl) ∧
      ((∀ e ∈ g, e.1 ≠ x) →
        filter_grouped_generators g w (x :: bl) = filter_grouped_generators g w bl) := by
  intro g A B X x w bl
  refine ⟨?_, ?_, ?_, ?_⟩
  · intro h
    have hpoint : ∀ e ∈ g,
        (!([B].contains e.1) && ([A, B].contains e.1)) = decide (e.1 = A) := by
      intro e he
      by_cases hA : e.1 = A
      · rw [hA]
        simp [List.contains_cons, h, Ne.symm h]
      · by_cases hB : e.1 = B
        · rw [hB]
          simp [List.contains_cons, hA, hB, Ne.symm h]
        · simp [List.contains_cons, hA, hB]
    calc filter_grouped_generators g [A, B] [B]
        = (g.filter (fun e => [A, B].contains e.1)).filter
            (fun e => !([B].contains e.1)) := by
          simp only [filter_grouped_generators, List.isEmpty_cons, Bool.false_eq_true,
            if_false]
      _ = g.filter (fun e => !([B].contains e.1) && ([A, B].contains e.1)) :=
          List.filter_filter ..
      _ = g.filter (fun e => decide (e.1 = A)) := List.filter_congr hpoint
  · have hpoint : ∀ e ∈ g, (!([X].contains e.1)) = !(decide (e.1 = X)) := by
      intro e he
      simp [List.contains_cons]
    calc filter_grouped_generators g [] [X]
        = g.filter (fun e => !([X].contains e.1)) := by
          simp only [filter_grouped_generators, List.isEmpty_nil, List.isEmpty_cons,
            Bool.false_eq_true, if_true, if_false]
      _ = g.filter (fun e => !(decide (e.1 = X))) := List.filter_congr hpoint
  · intro hw hx
    have hnil : ¬ (w.isEmpty = true) := by
      simp [List.isEmpty_iff, hw]
    have hfil : g.filter (fun e => (x :: w).contains e.1) =
        g.filter (fun e => w.contains e.1) :=
      List.filter_congr (fun e he => by simp [List.contains_cons, hx e he])
    simp only [filter_grouped_generators, List.isEmpty_cons, Bool.false_eq_true,
      if_false, hnil, hfil]
  · intro hx
    cases bl with
    | nil =>
      have hself : ∀ W : Grouped, (∀ e ∈ W, e ∈ g) →
          W.filter (fun e => !([x].contains e.1)) = W := by
        intro W hsub
        apply List.filter_eq_self.mpr
        intro e he
        simp [List.contains_cons, hx e (hsub e he)]
      by_cases hw : w.isEmpty = true
      · simp only [filter_grouped_generators, hw, List.isEmpty_cons, List.isEmpty_nil,
          Bool.false_eq_true, if_true, if_false]
        exact hself g (fun e he => he)
      · simp only [filter_grouped_generators, hw, List.isEmpty_cons, List.isEmpty_nil,
          Bool.false_eq_true, if_true, if_false]
        exact hself (g.filter (fun e => w.contains e.1))
          (fun e he => (List.mem_filter.mp he).1)
    | cons c cs =>
      have hfil : ∀ W : Grouped, (∀ e ∈ W, e ∈ g) →
          W.filter (fun e => !((x :: c :: cs).contains e.1)) =
          W.filter (fun e => !((c :: cs).contains e.1)) := by
        intro W hsub
        exact List.filter_congr
          (fun e he => by simp [List.contains_cons, hx e (hsub e he)])
      by_cases hw : w.isEmpty = true
      · simp only [filter_grouped_generators, hw, List.isEmpty_cons,
          Bool.false_eq_true, if_true, if_false]
        exact hfil g (fun e he => he)
      · simp only [filter_grouped_generators, hw, List.isEmpty_cons,
          Bool.false_eq_true, if_true, if_false]
        exact hfil (g.filter (fun e => w.contains e.1))
          (fun e he => (List.mem_filter.mp he).1)

/-- Witness for C7 on a concrete two-group mapping, with the unknown name Z
ignored in both lists. -/
theorem filter_whitelist_then_blacklist_witness :
    (filter_grouped_generators c7_g [("A" : String), ("B" : String)] [("B" : String)] =
      c7_g.filter (fun e => decide (e.1 = "A"))) ∧
    (filter_grouped_generators c7_g [] [("B" : String)] =
      c7_g.filter (fun e => !(decide (e.1 = "B")))) ∧
    (filter_grouped_generators c7_g (("Z" : String) :: [("A" : String)]) [] =
      filter_grouped_generators c7_g [("A" : String)] []) ∧
    (filter_grouped_generators c7_g [("A" : String)] (("Z" : String) :: []) =
      filter_grouped_generators c7_g [("A" : String)] []) :=
  ⟨(filter_whitelist_then_blacklist c7_g ("A") ("B") ("B") ("Z") [("A" : String)] []).1
      (by decide),
   (filter_whitelist_then_blacklist c7_g ("A") ("B") ("B") ("Z") [("A" : String)] []).2.1,
   (filter_whitelist_then_blacklist c7_g ("A") ("B") ("B") ("Z") [("A" : String)] []).2.2.1
      (by decide) (by decide),
   (filter_whitelist_then_blacklist c7_g ("A") ("B") ("B") ("Z") [("A" : String)] []).2.2.2
      (by decide)⟩

theorem c2_charts_vertex_ne : c2_chart_v1 ≠ c2_chart_v2 := by
  intro h
  have h2 := congrArg chart_first_height h
  have e1 : chart_first_height c2_chart_v1 = ((1 : Nat) : Rat) / ((2 : Int) : Rat) * 100 := rfl
  have e2 : chart_first_height c2_chart_v2 = ((1 : Nat) : Rat) / ((4 : Int) : Rat) * 100 := rfl
  rw [e1, e2] at h2
  norm_num at h2

theorem c2_charts_edge_ne : c2_chart_e1 ≠ c2_chart_e2 := by
  intro h
  have h2 := congrArg chart_first_height h
  have e1 : chart_first_height c2_chart_e1 = ((1 : Nat) : Rat) / ((2 : Int) : Rat) * 100 := rfl
  have e2 : chart_first_height c2_chart_e2 = ((1 : Nat) : Rat) / ((4 : Int) : Rat) * 100 := rfl
  rw [e1, e2] at h2
  norm_num at h2

/-- Counterexample for C2: the vertex-coverage-percentage chart function is
not a pure function of its explicit arguments — holding the grouped-generator
mapping fixed and changing only the class-level static
`BenchmarkPlotter.benchmark` (model with 2 versus 4 vertices) changes the
produced chart. -/
theorem vertex_pct_reads_static_counterexample :
    (plot_average_vertex_percentage_total_visits c2_b1 c2_grouped =
      Except.ok c2_chart_v1) ∧
    (plot_average_vertex_percentage_total_visits c2_b2 c2_grouped =
      Except.ok c2_chart_v2) ∧
    c2_chart_v1 ≠ c2_chart_v2 :=
  ⟨rfl, rfl, c2_charts_vertex_ne⟩

/-- C2 (amended): every chart-rendering function except the two
coverage-percentage plots is independent of the class-level static
`BenchmarkPlotter.benchmark` — same explicit arguments give the same chart
whatever the static holds — while the two coverage-percentage plots read the
static implicitly, so the same explicit arguments can give different charts.
The per-coverage histogram and test-execution renderers take no implicit
state at all in the embedding (their source bodies reference only their
parameters). -/
theorem plot_functions_static_dependence :
    (∀ (b1 b2 : Benchmark) (g : Grouped), plot_total_time b1 g = plot_total_time b2 g) ∧
    (∀ (b1 b2 : Benchmark) (g : Grouped), plot_total_size b1 g = plot_total_size b2 g) ∧
    (∀ (b1 b2 : Benchmark) (g : Grouped), plot_average_time b1 g = plot_average_time b2 g) ∧
    (∀ (b1 b2 : Benchmark) (g : Grouped), plot_average_size b1 g = plot_average_size b2 g) ∧
    (∀ (b1 b2 : Benchmark) (g : Grouped), plot_minimum_time b1 g = plot_minimum_time b2 g) ∧
    (∀ (b1 b2 : Benchmark) (g : Grouped), plot_maximum_time b1 g = plot_maximum_time b2 g) ∧
    (∀ (b1 b2 : Benchmark) (g : Grouped), plot_minimum_size b1 g = plot_minimum_size b2 g) ∧
    (∀ (b1 b2 : Benchmark) (g : Grouped), plot_maximum_size b1 g = plot_maximum_size b2 g) ∧
    (∀ (b1 b2 : Benchmark) (g : Grouped),
      plot_max_minus_min_size b1 g = plot_max_minus_min_size b2 g) ∧
    (∀ (b1 b2 : Benchmark) (g : Grouped),
      plot_max_minus_min_time b1 g = plot_max_minus_min_time b2 g) ∧
    (∀ (b1 b2 : Benchmark) (g : Grouped),
      plot_coverage_vs_time b1 g = plot_coverage_vs_time b2 g) ∧
    (∀ (b1 b2 : Benchmark) (g : Grouped),
      plot_average_size_divided_by_average_time b1 g =
        plot_average_size_divided_by_average_time b2 g) ∧
    (∀ (b1 b2 : Benchmark) (g : Grouped),
      plot_average_vs_minimum_time b1 g = plot_average_vs_minimum_time b2 g) ∧
    (∀ (b1 b2 : Benchmark) (g : Grouped),
      plot_average_vs_minimum_size b1 g = plot_average_vs_minimum_size b2 g) ∧
    ((plot_average_vertex_percentage_total_visits c2_b1 c2_grouped =
        Except.ok c2_chart_v1) ∧
     (plot_average_vertex_percentage_total_visits c2_b2 c2_grouped =
        Except.ok c2_chart_v2) ∧
     c2_chart_v1 ≠ c2_chart_v2) ∧
    ((plot_average_edge_percentage_total_visits c2_b1 c2_grouped =
        Except.ok c2_chart_e1) ∧
     (plot_average_edge_percentage_total_visits c2_b2 c2_grouped =
        Except.ok c2_chart_e2) ∧
     c2_chart_e1 ≠ c2_chart_e2) :=
  by
  refine ⟨?_, ?_, ?_, ?_, ?_, ?_, ?_, ?_, ?_, ?_, ?_, ?_, ?_, ?_,
    ⟨rfl, rfl, c2_charts_vertex_ne⟩, ⟨rfl, rfl, c2_charts_edge_ne⟩⟩ <;>
    exact fun b1 b2 g => rfl


theorem mk_series_ok_spec (w : Rat) (f : BenchmarkGenerator → Except PyErr Rat)
    (p : Nat × String × List BenchmarkGenerator) (s : BarSeries)
    (h : mk_series w f true p = Except.ok s) :
    s.xs = p.2.2.map (fun gen => (gen.stop_coverage : Rat) + (p.1 : Rat) * w) ∧
    s.trend_fit_input = some (s.xs.zip s.heights) := by
  cases hys : mapE f p.2.2 with
  | error e => simp [mk_series, hys, error_bind] at h
  | ok ys =>
    by_cases hemp :
        (p.2.2.map (fun gen => (gen.stop_coverage : Rat) + (p.1 : Rat) * w)).isEmpty
    · simp [mk_series, hys, hemp, error_bind, ok_bind, throw_eq_error,
        throwThe_eq_error, monadExceptOf_throw_eq_error] at h
    · simp only [mk_series, hys, hemp, error_bind, ok_bind, pure_eq_ok,
        if_true, if_false, Bool.false_eq_true, ite_true, ite_false,
        Except.map_ok, Except.map_error] at h
      have hs := (Except.ok.inj h).symm
      subst hs
      exact ⟨rfl, rfl⟩

theorem mapE_mk_series_spec (w : Rat) (f : BenchmarkGenerator → Except PyErr Rat) :
    ∀ (l : List (String × List BenchmarkGenerator)) (k : Nat) (out : List BarSeries),
      mapE (mk_series w f true) (enumerate k l) = Except.ok out →
      out.length = l.length ∧
      ∀ i (hi : i < out.length) (hg : i < l.length),
        (out.get ⟨i, hi⟩).xs =
          ((l.get ⟨i, hg⟩).2.map
            (fun gen => (gen.stop_coverage : Rat) + ((k + i : Nat) : Rat) * w)) ∧
        (out.get ⟨i, hi⟩).trend_fit_input =
          some ((out.get ⟨i, hi⟩).xs.zip (out.get ⟨i, hi⟩).heights) := by
  intro l
  induction l with
  | nil =>
    intro k out h
    simp [enumerate, mapE] at h
    subst h
    refine ⟨rfl, fun i hi hg => absurd hi (by simp)⟩
  | cons a l ih =>
    intro k out h
    simp only [enumerate, mapE] at h
    cases hb : mk_series w f true (k, a) with
    | error e => simp [hb, error_bind] at h
    | ok b =>
      cases hrest : mapE (mk_series w f true) (enumerate (k + 1) l) with
      | error e => simp [hb, hrest, error_bind, ok_bind] at h
      | ok bs =>
        simp only [hb, hrest, error_bind, ok_bind, pure_eq_ok] at h
        have hout : b :: bs = out := Except.ok.inj h
        obtain ⟨ihlen, ihspec⟩ := ih (k + 1) bs hrest
        subst hout
        constructor
        · simp [ihlen]
        · intro i hi hg
          cases i with
          | zero =>
            obtain ⟨hxs, htrend⟩ := mk_series_ok_spec w f (k, a) b hb
            refine ⟨?_, htrend⟩
            simpa using hxs
          | succ j =>
            have hj1 : j < bs.length := Nat.lt_of_succ_lt_succ (by simpa using hi)
            have hj2 : j < l.length := Nat.lt_of_succ_lt_succ (by simpa using hg)
            have hspec := ihspec j hj1 hj2
            have harith : (k + 1) + j = k + (j + 1) := by omega
            rw [harith] at hspec
            exact hspec

/-- Counterexample for C6: on a two-group mapping with both generators at
stop-coverage 50, the (x, y) pairs handed to the degree-3 trend-line fit of
the second series are the bar-offset positions (x = 53 = 50 + 1 · 6/2), not
the raw (coverage, value) pairs (x = 50) the claim describes. -/
theorem trend_fit_raw_coverage_counterexample :
    (c6_series.map (fun s => s.trend_fit_input) =
      [some [(((50 : Int) : Rat) + ((0 : Nat) : Rat) * (6 / ((2 : Nat) : Rat)), (10 : Rat))],
       some [(((50 : Int) : Rat) + ((1 : Nat) : Rat) * (6 / ((2 : Nat) : Rat)), (20 : Rat))]]) ∧
    (c6_raw_pairs = [[(((50 : Int) : Rat), (10 : Rat))], [(((50 : Int) : Rat), (20 : Rat))]]) ∧
    c6_series.map (fun s => s.trend_fit_input) ≠ c6_raw_pairs.map some := by
  have e1 : c6_series.map (fun s => s.trend_fit_input) =
      [some [(((50 : Int) : Rat) + ((0 : Nat) : Rat) * (6 / ((2 : Nat) : Rat)), (10 : Rat))],
       some [(((50 : Int) : Rat) + ((1 : Nat) : Rat) * (6 / ((2 : Nat) : Rat)), (20 : Rat))]] :=
    rfl
  have e2 : c6_raw_pairs =
      [[(((50 : Int) : Rat), (10 : Rat))], [(((50 : Int) : Rat), (20 : Rat))]] := rfl
  refine ⟨e1, e2, ?_⟩
  rw [e1, e2]
  intro h
  have h2 := congrArg second_first_x h
  have u1 : second_first_x
      [some [(((50 : Int) : Rat) + ((0 : Nat) : Rat) * (6 / ((2 : Nat) : Rat)), (10 : Rat))],
       some [(((50 : Int) : Rat) + ((1 : Nat) : Rat) * (6 / ((2 : Nat) : Rat)), (20 : Rat))]] =
      ((50 : Int) : Rat) + ((1 : Nat) : Rat) * (6 / ((2 : Nat) : Rat)) := rfl
  have u2 : second_first_x
      ([[(((50 : Int) : Rat), (10 : Rat))], [(((50 : Int) : Rat), (20 : Rat))]].map some) =
      ((50 : Int) : Rat) := rfl
  rw [u1, u2] at h2
  norm_num at h2

/-- C6 (amended): for every bar chart the degree-3 trend line of the series
with index i is fit over the pairs (stop-coverage + i · bar_width, value)
— the bar-offset x positions with bar_width = 6 / group count — zipped with
that series' own values, not over the raw stop-coverage values. -/
theorem trend_fit_offset_pairs :
    ∀ (grouped : Grouped) (f : BenchmarkGenerator → Except PyErr Rat)
      (series : List BarSeries) (xticks : List Int),
      plot_bars grouped f true = Except.ok (series, xticks) →
      series.length = grouped.length ∧
      ∀ i (hi : i < series.length) (hg : i < grouped.length),
        (series.get ⟨i, hi⟩).xs =
          ((grouped.get ⟨i, hg⟩).2.map
            (fun gen => (gen.stop_coverage : Rat) +
              ((i : Nat) : Rat) * (6 / (grouped.length : Rat)))) ∧
        (series.get ⟨i, hi⟩).trend_fit_input =
          some ((series.get ⟨i, hi⟩).xs.zip (series.get ⟨i, hi⟩).heights) := by
  intro grouped f series xticks h
  by_cases h0 : grouped.length = 0
  · simp [plot_bars, h0, throw_eq_error, throwThe_eq_error,
      monadExceptOf_throw_eq_error, error_bind] at h
  · cases hm : mapE (mk_series (6 / (grouped.length : Rat)) f true) (enumerate 0 grouped) with
    | error e =>
      simp [plot_bars, h0, hm, error_bind, ok_bind] at h
    | ok s =>
      have hseries : s = series := by
        cases grouped with
        | nil => exact absurd rfl h0
        | cons a rest =>
          simp only [plot_bars, h0, hm, error_bind, ok_bind, pure_eq_ok,
            Bool.false_eq_true, if_false, ite_false] at h
          exact (Prod.mk.injEq .. ▸ Except.ok.inj h).1
      subst hseries
      obtain ⟨hlen, hspec⟩ := mapE_mk_series_spec (6 / (grouped.length : Rat)) f grouped 0 s hm
      refine ⟨hlen, ?_⟩
      intro i hi hg
      have := hspec i hi hg
      simpa using this

/-- Witness for C6: on a concrete three-group mapping the second series'
bar positions are offset by 1 · 6/3 and its trend fit runs over those
offset positions zipped with its values. -/
theorem trend_fit_offset_pairs_witness :
    c6w_pair.1.length = c6w_grouped.length ∧
    ((c6w_pair.1.get ⟨1, by decide⟩).xs =
      ((c6w_grouped.get ⟨1, by decide⟩).2.map
        (fun gen => (gen.stop_coverage : Rat) +
          ((1 : Nat) : Rat) * (6 / (c6w_grouped.length : Rat)))) ∧
     (c6w_pair.1.get ⟨1, by decide⟩).trend_fit_input =
      some ((c6w_pair.1.get ⟨1, by decide⟩).xs.zip (c6w_pair.1.get ⟨1, by decide⟩).heights)) := by
  have h : plot_bars c6w_grouped c6w_value true = Except.ok (c6w_pair.1, c6w_pair.2) := rfl
  have H := trend_fit_offset_pairs c6w_grouped c6w_value c6w_pair.1 c6w_pair.2 h
  exact ⟨H.1, H.2 1 (by decide) (by decide)⟩

theorem mapE_keyed {κ γ : Type} (F : κ → Except PyErr (String × γ)) (kf : κ → String)
    (hF : ∀ p q, F p = Except.ok q → q.1 = kf p) :
    ∀ (l : List κ) (out : List (String × γ)),
      mapE F l = Except.ok out → out.map Prod.fst = l.map kf := by
  intro l
  induction l with
  | nil =>
    intro out h
    simp [mapE] at h
    subst h
    simp
  | cons a l ih =>
    intro out h
    simp only [mapE] at h
    cases hq : F a with
    | error e => simp [hq, error_bind] at h
    | ok q =>
      cases hrest : mapE F l with
      | error e => simp [hq, hrest, error_bind, ok_bind] at h
      | ok qs =>
        simp only [hq, hrest, error_bind, ok_bind, pure_eq_ok] at h
        have : q :: qs = out := Except.ok.inj h
        subst this
        simp [ih qs hrest, hF a q hq]

theorem mapE_percov_keys (grouped : Grouped) (cs : List Int) :
    ∀ (fns : List (String × (Grouped → Int → Except PyErr Chart)))
      (outs : List (List (String × Chart))),
      mapE (fun p => mapE
        (fun c => Except.map (fun chart => (per_coverage_key p.1 c, chart)) (p.2 grouped c))
        cs) fns = Except.ok outs →
      outs.flatten.map Prod.fst =
        (fns.map (fun p => cs.map (per_coverage_key p.1))).flatten := by
  intro fns
  induction fns with
  | nil =>
    intro outs h
    simp [mapE] at h
    subst h
    simp
  | cons a fns ih =>
    intro outs h
    simp only [mapE] at h
    cases h1 : mapE
        (fun c => Except.map (fun chart => (per_coverage_key a.1 c, chart)) (a.2 grouped c))
        cs with
    | error e => simp [h1, error_bind] at h
    | ok o1 =>
      cases h2 : mapE (fun p => mapE
          (fun c => Except.map (fun chart => (per_coverage_key p.1 c, chart)) (p.2 grouped c))
          cs) fns with
      | error e => simp [h1, h2, error_bind, ok_bind] at h
      | ok os =>
        simp only [h1, h2, error_bind, ok_bind, pure_eq_ok] at h
        have : o1 :: os = outs := Except.ok.inj h
        subst this
        have hinner : o1.map Prod.fst = cs.map (per_coverage_key a.1) := by
          apply mapE_keyed
            (fun c => Except.map (fun chart => (per_coverage_key a.1 c, chart)) (a.2 grouped c))
            (per_coverage_key a.1) ?_ cs o1 h1
          intro c q hq
          cases hc : a.2 grouped c with
          | error e => simp [hc, Except.map] at hq
          | ok chart =>
            simp only [hc, Except.map] at hq
            rw [← Except.ok.inj hq]
        simp only [List.flatten_cons, List.map_append, List.map_cons]
        rw [hinner, ih os h2]

theorem percov_names_map (cs : List Int) :
    (get_per_coverage_plot_functions.map (fun p => cs.map (per_coverage_key p.1))) =
    per_coverage_plot_names.map (fun n => cs.map (per_coverage_key n)) := rfl

theorem create_plots_keys :
    ∀ (b : Benchmark) (g : Grouped) (plots : List (String × Chart)),
      create_plots b g = Except.ok plots →
      plots.map Prod.fst =
        general_plot_names ++
        ((if b.run_groups.all (fun rg => rg.successful_runs) then
          test_execution_plot_names else []) ++
        (per_coverage_plot_names.map
          (fun n => (coverage_values g).map (per_coverage_key n))).flatten) := by
  intro b g plots h
  simp only [create_plots] at h
  cases h1 : mapE (fun p => Except.map (fun c => (p.1, c)) (p.2 g))
      (get_plot_functions b) with
  | error e =>
    rw [h1, error_bind] at h
    exact absurd h (by simp)
  | ok general =>
    rw [h1, ok_bind] at h
    have hgen : general.map Prod.fst = general_plot_names := by
      have := mapE_keyed (fun p => Except.map (fun c => (p.1, c)) (p.2 g))
        Prod.fst ?_ (get_plot_functions b) general h1
      · exact this
      · intro p q hq
        cases hc : p.2 g with
        | error e => simp [hc, Except.map] at hq
        | ok c =>
          simp only [hc, Except.map] at hq
          rw [← Except.ok.inj hq]
    by_cases hc : b.run_groups.all (fun rg => rg.successful_runs)
    · rw [if_pos hc] at h
      cases h2 : mapE (fun p => Except.map (fun c => (p.1, c)) (p.2 b g))
          get_test_execution_plot_functions with
      | error e =>
        rw [h2, error_bind] at h
        exact absurd h (by simp)
      | ok tps =>
        rw [h2, ok_bind] at h
        have htps : tps.map Prod.fst = test_execution_plot_names := by
          have := mapE_keyed (fun p => Except.map (fun c => (p.1, c)) (p.2 b g))
            Prod.fst ?_ get_test_execution_plot_functions tps h2
          · exact this
          · intro p q hq
            cases hcc : p.2 b g with
            | error e => simp [hcc, Except.map] at hq
            | ok c =>
              simp only [hcc, Except.map] at hq
              rw [← Except.ok.inj hq]
        cases h3 : mapE (fun p => mapE
            (fun c => Except.map (fun chart => (per_coverage_key p.1 c, chart)) (p.2 g c))
            (coverage_values g)) get_per_coverage_plot_functions with
        | error e =>
          rw [h3, error_bind] at h
          exact absurd h (by simp)
        | ok pcs =>
          rw [h3, ok_bind, pure_eq_ok] at h
          have hplots : general ++ tps ++ pcs.flatten = plots := Except.ok.inj h
          rw [← hplots]
          have hpc := mapE_percov_keys g (coverage_values g)
            get_per_coverage_plot_functions pcs h3
          rw [percov_names_map] at hpc
          simp only [List.map_append, hgen, htps, hpc, if_pos hc, List.append_assoc]
    · rw [if_neg hc, pure_eq_ok, ok_bind] at h
      cases h3 : mapE (fun p => mapE
          (fun c => Except.map (fun chart => (per_coverage_key p.1 c, chart)) (p.2 g c))
          (coverage_values g)) get_per_coverage_plot_functions with
      | error e =>
        rw [h3, error_bind] at h
        exact absurd h (by simp)
      | ok pcs =>
        rw [h3, ok_bind, pure_eq_ok] at h
        have hplots : general ++ [] ++ pcs.flatten = plots := Except.ok.inj h
        rw [← hplots]
        have hpc := mapE_percov_keys g (coverage_values g)
          get_per_coverage_plot_functions pcs h3
        rw [percov_names_map] at hpc
        simp only [List.map_append, hgen, hpc, if_neg hc, List.append_assoc,
          List.append_nil, List.nil_append, List.map_nil]

theorem mem_collect_inner :
    ∀ (l : List BenchmarkGenerator) (acc : List Int) (x : Int),
      (x ∈ l.foldl (fun acc2 gen =>
        if gen.stop_coverage ∈ acc2 then acc2 else acc2 ++ [gen.stop_coverage]) acc) ↔
      (x ∈ acc ∨ ∃ gen ∈ l, gen.stop_coverage = x) := by
  intro l
  induction l with
  | nil =>
    intro acc x
    simp
  | cons a l ih =>
    intro acc x
    simp only [List.foldl_cons]
    rw [ih]
    by_cases hmem : a.stop_coverage ∈ acc
    · rw [if_pos hmem]
      constructor
      · rintro (hx | ⟨gen, hgen, hcov⟩)
        · exact Or.inl hx
        · exact Or.inr ⟨gen, List.mem_cons_of_mem a hgen, hcov⟩
      · rintro (hx | ⟨gen, hgen, hcov⟩)
        · exact Or.inl hx
        · rcases List.mem_cons.mp hgen with rfl | hgl
          · exact Or.inl (hcov ▸ hmem)
          · exact Or.inr ⟨gen, hgl, hcov⟩
    · rw [if_neg hmem]
      constructor
      · rintro (hx | ⟨gen, hgen, hcov⟩)
        · rcases List.mem_append.mp hx with hx | hx
          · exact Or.inl hx
          · exact Or.inr ⟨a, List.mem_cons_self a l, (List.mem_singleton.mp hx).symm⟩
        · exact Or.inr ⟨gen, List.mem_cons_of_mem a hgen, hcov⟩
      · rintro (hx | ⟨gen, hgen, hcov⟩)
        · exact Or.inl (List.mem_append.mpr (Or.inl hx))
        · rcases List.mem_cons.mp hgen with rfl | hgl
          · exact Or.inl (List.mem_append.mpr (Or.inr (List.mem_singleton.mpr hcov.symm)))
          · exact Or.inr ⟨gen, hgl, hcov⟩

theorem mem_collect_outer :
    ∀ (g : Grouped) (acc : List Int) (x : Int),
      (x ∈ g.foldl (fun acc e =>
        e.2.foldl (fun acc2 gen =>
          if gen.stop_coverage ∈ acc2 then acc2 else acc2 ++ [gen.stop_coverage]) acc) acc) ↔
      (x ∈ acc ∨ ∃ e ∈ g, ∃ gen ∈ e.2, gen.stop_coverage = x) := by
  intro g
  induction g with
  | nil =>
    intro acc x
    simp
  | cons a g ih =>
    intro acc x
    simp only [List.foldl_cons]
    rw [ih, mem_collect_inner]
    constructor
    · rintro ((hx | ⟨gen, hgen, hcov⟩) | ⟨e, he, gen, hgen, hcov⟩)
      · exact Or.inl hx
      · exact Or.inr ⟨a, List.mem_cons_self a g, gen, hgen, hcov⟩
      · exact Or.inr ⟨e, List.mem_cons_of_mem a he, gen, hgen, hcov⟩
    · rintro (hx | ⟨e, he, gen, hgen, hcov⟩)
      · exact Or.inl (Or.inl hx)
      · rcases List.mem_cons.mp he with rfl | hgl
        · exact Or.inl (Or.inr ⟨gen, hgen, hcov⟩)
        · exact Or.inr ⟨e, hgl, gen, hgen, hcov⟩

theorem nodup_collect_inner :
    ∀ (l : List BenchmarkGenerator) (acc : List Int), acc.Nodup →
      (l.foldl (fun acc2 gen =>
        if gen.stop_coverage ∈ acc2 then acc2 else acc2 ++ [gen.stop_coverage]) acc).Nodup := by
  intro l
  induction l with
  | nil =>
    intro acc h
    simpa using h
  | cons a l ih =>
    intro acc h
    simp only [List.foldl_cons]
    by_cases hmem : a.stop_coverage ∈ acc
    · rw [if_pos hmem]
      exact ih acc h
    · rw [if_neg hmem]
      refine ih (acc ++ [a.stop_coverage]) ?_
      rw [List.nodup_append]
      exact ⟨h, List.nodup_singleton _,
        fun x hx hy => hmem ((List.mem_singleton.mp hy) ▸ hx)⟩

theorem nodup_collect_outer :
    ∀ (g : Grouped) (acc : List Int), acc.Nodup →
      (g.foldl (fun acc e =>
        e.2.foldl (fun acc2 gen =>
          if gen.stop_coverage ∈ acc2 then acc2 else acc2 ++ [gen.stop_coverage]) acc)
        acc).Nodup := by
  intro g
  induction g with
  | nil =>
    intro acc h
    simpa using h
  | cons a g ih =>
    intro acc h
    simp only [List.foldl_cons]
    exact ih _ (nodup_collect_inner a.2 acc h)

theorem coverage_values_sorted (g : Grouped) :
    List.Sorted (fun a b : Int => a < b) (coverage_values g) := by
  have hnd : (collect_coverage_values g).Nodup :=
    nodup_collect_outer g [] List.nodup_nil
  have hperm := List.perm_insertionSort (fun a b : Int => a ≤ b) (collect_coverage_values g)
  have hnd2 : (coverage_values g).Nodup := hperm.symm.nodup hnd
  have hs : List.Sorted (fun a b : Int => a ≤ b) (coverage_values g) :=
    List.sorted_insertionSort (fun a b : Int => a ≤ b) (collect_coverage_values g)
  exact hs.lt_of_le hnd2

theorem mem_coverage_values (g : Grouped) (x : Int) :
    x ∈ coverage_values g ↔ ∃ e ∈ g, ∃ gen ∈ e.2, gen.stop_coverage = x := by
  rw [coverage_values]
  rw [(List.perm_insertionSort (fun a b : Int => a ≤ b)
    (collect_coverage_values g)).mem_iff]
  rw [collect_coverage_values, mem_collect_outer]
  simp

/-- C5: whenever `create_plots` succeeds, its key list contains — after the
general charts and the conditional test-execution charts — for each
per-coverage histogram chart name one key per distinct stop-coverage value
occurring in the input, iterated in ascending order, each key being the
chart name followed by the suffix `- <coverage>%`. -/
theorem per_coverage_histogram_keys :
    ∀ (b : Benchmark) (g : Grouped) (plots : List (String × Chart)),
      create_plots b g = Except.ok plots →
      ∃ cs : List Int,
        List.Sorted (fun a b : Int => a < b) cs ∧
        (∀ x : Int, (x ∈ cs ↔ ∃ e ∈ g, ∃ gen ∈ e.2, gen.stop_coverage = x)) ∧
        plots.map Prod.fst =
          general_plot_names ++
          ((if b.run_groups.all (fun rg => rg.successful_runs) then
            test_execution_plot_names else []) ++
          (per_coverage_plot_names.map (fun n => cs.map (per_coverage_key n))).flatten) :=
  fun b g plots h =>
    ⟨coverage_values g, coverage_values_sorted g,
     fun x => mem_coverage_values g x, create_plots_keys b g plots h⟩

/-- Witness for C5: on a concrete input with stop-coverage values 100 and 50
inserted out of order and an unsuccessful run group, `create_plots` succeeds
and the key layout holds. -/
theorem per_coverage_histogram_keys_witness :
    ∃ cs : List Int,
      List.Sorted (fun a b : Int => a < b) cs ∧
      (∀ x : Int, (x ∈ cs ↔ ∃ e ∈ c5_grouped, ∃ gen ∈ e.2, gen.stop_coverage = x)) ∧
      c5_plots.map Prod.fst =
        general_plot_names ++
        ((if c5_bench.run_groups.all (fun rg => rg.successful_runs) then
          test_execution_plot_names else []) ++
        (per_coverage_plot_names.map
          (fun n => cs.map (per_coverage_key n))).flatten) :=
  per_coverage_histogram_keys c5_bench c5_grouped c5_plots rfl

theorem percov_keys_long (cs : List Int) (k : String)
    (hk : k ∈ (per_coverage_plot_names.map
      (fun n => cs.map (per_coverage_key n))).flatten) :
    27 < k.length := by
  rw [List.mem_flatten] at hk
  obtain ⟨l, hl, hkl⟩ := hk
  rw [List.mem_map] at hl
  obtain ⟨n, hn, rfl⟩ := hl
  rw [List.mem_map] at hkl
  obtain ⟨c, hc, rfl⟩ := hkl
  have hlen : (per_coverage_key n c).length =
      n.length + (" - ").length + (toString c).length + ("%").length := by
    simp [per_coverage_key, String.length_append]
  have h3 : (" - ").length = 3 := rfl
  have h1 : ("%").length = 1 := rfl
  have hn29 : 29 ≤ n.length := by
    simp only [per_coverage_plot_names, List.mem_cons, List.not_mem_nil,
      or_false] at hn
    rcases hn with rfl | rfl | rfl | rfl <;> decide
  omega

/-- C4: whenever `create_plots` succeeds, its result contains the three
test-execution charts (Average/Minimum/Maximum Test Execution Time) if and
only if every RunGroup of the benchmark has `successful_runs = true`; when
any RunGroup is unsuccessful, the whole chart family is absent from the
produced plot mapping. -/
theorem test_execution_plots_iff_all_successful :
    ∀ (b : Benchmark) (g : Grouped) (plots : List (String × Chart)),
      create_plots b g = Except.ok plots →
      ((("Average Test Execution Time" : String) ∈ plots.map Prod.fst ∧
        ("Minimum Test Execution Time" : String) ∈ plots.map Prod.fst ∧
        ("Maximum Test Execution Time" : String) ∈ plots.map Prod.fst) ↔
        ∀ rg ∈ b.run_groups, rg.successful_runs = true) := by
  intro b g plots h
  have hkeys := create_plots_keys b g plots h
  constructor
  · rintro ⟨h1, -, -⟩
    by_cases hc : b.run_groups.all (fun rg => rg.successful_runs)
    · exact List.all_eq_true.mp hc
    · exfalso
      rw [hkeys, if_neg hc] at h1
      rcases List.mem_append.mp h1 with h1 | h1
      · exact absurd h1 (by decide)
      · rcases List.mem_append.mp h1 with h1 | h1
        · simp at h1
        · have hlong := percov_keys_long (coverage_values g) _ h1
          have : ("Average Test Execution Time" : String).length = 27 := rfl
          omega
  · intro hall
    have hc : b.run_groups.all (fun rg => rg.successful_runs) = true :=
      List.all_eq_true.mpr hall
    rw [hkeys, if_pos hc]
    refine ⟨?_, ?_, ?_⟩ <;>
      exact List.mem_append.mpr
        (Or.inr (List.mem_append.mpr (Or.inl (by decide))))

/-- Witness for C4: on a concrete benchmark whose single run group is
successful, `create_plots` succeeds and the three test-execution charts are
present, matching the all-successful condition. -/
theorem test_execution_plots_iff_witness :
    (("Average Test Execution Time" : String) ∈ c4_plots.map Prod.fst ∧
     ("Minimum Test Execution Time" : String) ∈ c4_plots.map Prod.fst ∧
     ("Maximum Test Execution Time" : String) ∈ c4_plots.map Prod.fst) ↔
      ∀ rg ∈ c4_bench.run_groups, rg.successful_runs = true :=
  test_execution_plots_iff_all_successful c4_bench c4_grouped c4_plots rfl
